import Mathlib

/-!
Shallow embedding of the Data Health Assessment Engine of this repository
(src/server/src/services/data_health_service.py and
src/server/src/services/llm_dimension_selector.py), together with proofs
about the claims of the specification.

Modelling conventions:
* Python floats are idealized as exact rationals; Python round(x, 1) is
  modelled by round1, exact half-even rounding at one decimal place.
* Database state is a Table: a list of rows, each row an association list
  from column name to an optional cell Value. A Value is a string or a date
  given as an integer day count, with datetime(1900,1,1) at day 0.
* Every SQLAlchemy query becomes a pure function over the table; each batch
  helper of the service also returns the list of DBQuery round trips it
  issues, so that query counts can be stated.
* datetime.now() becomes an explicit today parameter. The report fields
  assessment_timestamp and performance_metrics are wall-clock data and are
  left out of the model.
* The pure model cannot raise, so except branches of the source are reached
  only where the pure data can trigger them (for example a date column whose
  stored values are not dates, which makes the Python date arithmetic raise).
  The unreachable except placeholders are still defined as constants so that
  their score range can be stated.
* The textual rendering of numbers inside generated issue strings uses the
  Lean toString of a rational, which differs cosmetically from the Python
  float formatting; no claim depends on that text beyond substring tests on
  its alphabetic part, which are preserved.
-/

namespace DataHealth

/-- Brace and quote characters, written by code point. -/
def lbrace : Char := Char.ofNat 123

def rbrace : Char := Char.ofNat 125

def quoteChar : Char := Char.ofNat 34

def backslashChar : Char := Char.ofNat 92

/-- Containment of sub as a contiguous substring of the second list. -/
def hasSubList (sub : List Char) : List Char → Bool
  | [] => sub.isEmpty
  | c :: t => sub.isPrefixOf (c :: t) || hasSubList sub t

/-- Python membership test on strings: strIn sub s models the expression sub in s. -/
def strIn (sub s : String) : Bool := hasSubList sub.toList s.toList

/-- Python str.lower, codepointwise (kernel-computable, unlike String.toLower). -/
def pyLower (s : String) : String := String.mk (s.toList.map Char.toLower)

/-- Python str.strip, idealized as whitespace trimming (kernel-computable). -/
def pyStrip (s : String) : String :=
  String.mk (((s.toList.dropWhile Char.isWhitespace).reverse.dropWhile Char.isWhitespace).reverse)

/-- Round to the nearest integer, ties to the even integer, as Python round does. -/
def roundHalfEven (q : ℚ) : ℤ :=
  if q - ((⌊q⌋ : ℤ) : ℚ) < 1/2 then ⌊q⌋
  else if 1/2 < q - ((⌊q⌋ : ℤ) : ℚ) then ⌊q⌋ + 1
  else if ⌊q⌋ % 2 = 0 then ⌊q⌋ else ⌊q⌋ + 1

/-- Python round(x, 1) on the idealized rationals. -/
def round1 (q : ℚ) : ℚ := (roundHalfEven (q * 10) : ℚ) / 10

/-- A cell of the database: a string or a date (day count, day 0 = 1900-01-01).
The textual form of a date is abstracted; no claim depends on it. -/
inductive Value
  | vstr (s : String)
  | vdate (d : ℤ)
deriving DecidableEq, Repr

def Value.toStr : Value → String
  | .vstr s => s
  | .vdate d => toString d

/-- One database record: column name to optional cell, as getattr reads it. -/
abbrev Row : Type := List (String × Option Value)

/-- getattr(record, column_name, None): a missing column reads as None. -/
def rowGet (r : Row) (name : String) : Option Value := (r.lookup name).getD none

/-- One table of the database (one model class of the source). -/
structure Table where
  rows : List Row
deriving DecidableEq, Repr

/-- The column of a table as the list of its cells, in row order. -/
def colValues (t : Table) (name : String) : List (Option Value) :=
  t.rows.map (fun r => rowGet r name)

/-- The non-null cells of a column, in row order. -/
def nonNullValues (t : Table) (name : String) : List Value :=
  (colValues t name).filterMap id

/-- SQL count(column): counts non-null cells. -/
def countNonNull (t : Table) (name : String) : ℤ :=
  ((nonNullValues t name).length : ℕ)

/-- SQL count(*) filtered on column IS NULL. -/
def countNullRows (t : Table) (name : String) : ℤ :=
  (((colValues t name).countP (fun v => v.isNone)) : ℕ)

/-- SQL count(distinct column) over non-null cells. -/
def countDistinctNonNull (t : Table) (name : String) : ℤ :=
  (((nonNullValues t name).dedup.length) : ℕ)

/-- The dates stored in a column, discarding non-date cells. -/
def datesOf (t : Table) (name : String) : List ℤ :=
  (nonNullValues t name).filterMap (fun v => match v with | .vdate d => some d | _ => none)

/-- True when every non-null cell of the column is a date, so that the Python
date arithmetic of the timeliness scorer cannot raise. -/
def allDates (t : Table) (name : String) : Bool :=
  (nonNullValues t name).all (fun v => match v with | .vdate _ => true | _ => false)

/-- Column metadata as _get_column_info extracts it from the model class. -/
structure ColumnInfo where
  type : String
  nullable : Bool := true
  primary_key : Bool := false
deriving DecidableEq, Repr

/-- The recognized schema types (the keys of MODEL_MAPPING; the model classes
themselves live in src/models/unsafe_event_models.py, which is not under src/,
so the table of each schema is a parameter of the model). -/
def MODEL_MAPPING_KEYS : List String := ["ei_tech", "srs", "ni_tct", "ni_tct_augmented"]

/-- Critical fields for each schema type. -/
def CRITICAL_FIELDS : List (String × List String) :=
  [ ("ei_tech", ["event_id", "reporter_name", "reported_date", "branch", "region", "unsafe_event_type"])
  , ("srs", ["event_id", "reporter_name", "reported_date", "branch", "region", "unsafe_event_type"])
  , ("ni_tct", ["reporting_id", "reporter_name", "created_on", "branch_name", "region", "type_of_unsafe_event"])
  , ("ni_tct_augmented", ["reporting_id", "reporter_name", "created_on", "branch_name", "region", "type_of_unsafe_event"]) ]

/-- Data quality dimension weights, in the insertion order of the source dict. -/
def DIMENSION_WEIGHTS : List (String × ℚ) :=
  [("completeness", 25), ("uniqueness", 10), ("consistency", 20), ("validity", 20), ("timeliness", 25)]

/-- The five canonical dimensions, in the order of the literal list of the source. -/
def CANONICAL_DIMENSIONS : List String :=
  ["completeness", "uniqueness", "consistency", "validity", "timeliness"]

/-- Weight lookup with the default 0 used by dict .get calls of the source. -/
def weightOf (d : String) : ℚ := (DIMENSION_WEIGHTS.lookup d).getD 0

/-- _should_assess_uniqueness: substring heuristic on the lowercased name. -/
def should_assess_uniqueness (column_name : String) (_column_info : ColumnInfo) : Bool :=
  ["id", "key", "number", "no", "reference"].any (fun ind => strIn ind (pyLower column_name))

/-- _is_date_column: type string mentions date or time. -/
def is_date_column (column_info : ColumnInfo) : Bool :=
  strIn "date" (pyLower column_info.type) || strIn "time" (pyLower column_info.type)

/-- Regex YYYY-MM-DD anchored on the whole string. -/
def matchesYMD (cs : List Char) : Bool :=
  match cs with
  | [a,b,c,d,e,f,g,h,i,j] =>
      a.isDigit && b.isDigit && c.isDigit && d.isDigit && (e == '-') &&
      f.isDigit && g.isDigit && (h == '-') && i.isDigit && j.isDigit
  | _ => false

/-- Regex MM/DD/YYYY anchored on the whole string. -/
def matchesMDYSlash (cs : List Char) : Bool :=
  match cs with
  | [a,b,c,d,e,f,g,h,i,j] =>
      a.isDigit && b.isDigit && (c == '/') && d.isDigit && e.isDigit && (f == '/') &&
      g.isDigit && h.isDigit && i.isDigit && j.isDigit
  | _ => false

/-- Regex MM-DD-YYYY anchored on the whole string. -/
def matchesMDYDash (cs : List Char) : Bool :=
  match cs with
  | [a,b,c,d,e,f,g,h,i,j] =>
      a.isDigit && b.isDigit && (c == '-') && d.isDigit && e.isDigit && (f == '-') &&
      g.isDigit && h.isDigit && i.isDigit && j.isDigit
  | _ => false

/-- _check_date_patterns: count values matching none of the three date regexes. -/
def check_date_patterns (values : List String) : ℤ :=
  ((values.countP (fun v =>
      !(matchesYMD v.toList || matchesMDYSlash v.toList || matchesMDYDash v.toList))) : ℕ)

/-- One character of the class [a-zA-Z0-9_-]. -/
def isIdChar (c : Char) : Bool :=
  c.isDigit || (('a' ≤ c) && (c ≤ 'z')) || (('A' ≤ c) && (c ≤ 'Z')) || (c == '_') || (c == '-')

/-- Regex [a-zA-Z0-9_-]+ anchored on the whole string. -/
def matchesIdPattern (s : String) : Bool :=
  !s.toList.isEmpty && s.toList.all isIdChar

/-- _check_id_patterns. -/
def check_id_patterns (values : List String) : ℤ :=
  ((values.countP (fun v => !matchesIdPattern v || (pyStrip v).length == 0)) : ℕ)

/-- _check_general_patterns: reject blank or overlong values. -/
def check_general_patterns (values : List String) (_column_info : ColumnInfo) : ℤ :=
  ((values.countP (fun v => ((pyStrip v).length == 0) || decide (1000 < v.length))) : ℕ)

/-- Result dict of the completeness scorers. -/
structure CompletenessResult where
  score : ℚ
  null_count : ℤ
  non_null_count : ℤ
  null_percentage : ℚ
deriving DecidableEq, Repr

/-- Result dict of the uniqueness scorers. -/
structure UniquenessResult where
  score : ℚ
  unique_count : ℤ
  duplicate_count : ℤ
  total_non_null : ℤ
deriving DecidableEq, Repr

/-- Result dict of the consistency scorers. The zero and except dicts of the
LLM-path scorer omit the violation_percentage key, hence the Option. -/
structure ConsistencyResult where
  score : ℚ
  pattern_violations : ℤ
  total_checked : ℤ
  violation_percentage : Option ℚ := none
deriving DecidableEq, Repr

/-- Result dict of the validity scorers. The zero and except dicts of the
LLM-path scorer omit the invalid_percentage key, hence the Option. -/
structure ValidityResult where
  score : ℚ
  invalid_count : ℤ
  total_checked : ℤ
  invalid_percentage : Option ℚ := none
deriving DecidableEq, Repr

/-- Result dict of the timeliness scorers. The no-data and except dicts omit
the latest_date and oldest_date keys, hence the Options. -/
structure TimelinessResult where
  score : ℚ
  days_since_latest : ℤ
  avg_age_days : ℤ
  latest_date : Option ℤ := none
  oldest_date : Option ℤ := none
deriving DecidableEq, Repr

/-- Except-branch placeholder of _assess_completeness. -/
def completeness_error_result (total_records : ℤ) : CompletenessResult :=
  { score := 0, null_count := total_records, non_null_count := 0, null_percentage := 100 }

/-- Except-branch placeholder of _assess_uniqueness. -/
def uniqueness_error_result (total_records : ℤ) : UniquenessResult :=
  { score := 0, unique_count := 0, duplicate_count := total_records, total_non_null := total_records }

/-- Except-branch placeholder of _assess_consistency. -/
def consistency_error_result : ConsistencyResult :=
  { score := 0, pattern_violations := 0, total_checked := 0 }

/-- Except-branch placeholder of _assess_validity. -/
def validity_error_result : ValidityResult :=
  { score := 0, invalid_count := 0, total_checked := 0 }

/-- Except-branch placeholder of _assess_timeliness and of the batch
timeliness no-data row. -/
def timeliness_zero_result : TimelinessResult :=
  { score := 0, days_since_latest := 0, avg_age_days := 0 }

/-- Placeholder stored for a dimension whose thread-pool future failed or
timed out in the LLM-guided path. -/
structure DimensionErrorResult where
  score : ℚ
  error : String
deriving DecidableEq, Repr

def dimension_timeout_placeholder (e : String) : DimensionErrorResult :=
  { score := 0, error := e }

/-- The freshness step function shared by both timeliness scorers. -/
def freshness_score (days_since_latest : ℤ) : ℚ :=
  if days_since_latest ≤ 30 then 100
  else if days_since_latest ≤ 60 then 85
  else if days_since_latest ≤ 90 then 70
  else if days_since_latest ≤ 180 then 50
  else 25

/-- _assess_consistency_from_sample: pattern compliance of a pre-fetched sample. -/
def assess_consistency_from_sample (sample_values : List String) (column_info : ColumnInfo)
    (column_name : String) : ConsistencyResult :=
  if sample_values.isEmpty then
    { score := 0, pattern_violations := 0, total_checked := 0, violation_percentage := some 0 }
  else
    let total_checked : ℤ := (sample_values.length : ℕ)
    let violations : ℤ :=
      if strIn "date" (pyLower column_name) then check_date_patterns sample_values
      else if strIn "id" (pyLower column_name) then check_id_patterns sample_values
      else check_general_patterns sample_values column_info
    let consistency_percentage : ℚ :=
      if 0 < total_checked then ((total_checked - violations : ℤ) : ℚ) / (total_checked : ℚ) * 100 else 0
    let violation_percentage : ℚ :=
      if 0 < total_checked then (violations : ℚ) / (total_checked : ℚ) * 100 else 0
    { score := round1 consistency_percentage
    , pattern_violations := violations
    , total_checked := total_checked
    , violation_percentage := some (round1 violation_percentage) }

/-- _assess_validity_from_sample: business rules keyed by column name on a
pre-fetched sample. -/
def assess_validity_from_sample (sample_values : List String) (_column_info : ColumnInfo)
    (column_name : String) : ValidityResult :=
  if sample_values.isEmpty then
    { score := 0, invalid_count := 0, total_checked := 0, invalid_percentage := some 0 }
  else
    let total_checked : ℤ := (sample_values.length : ℕ)
    let invalid_count : ℤ :=
      if strIn "date" (pyLower column_name) then
        ((sample_values.countP (fun v => (pyStrip v).length == 0)) : ℕ)
      else if strIn "id" (pyLower column_name) then
        ((sample_values.countP (fun v => !matchesIdPattern v || (pyStrip v).length == 0)) : ℕ)
      else
        ((sample_values.countP (fun v => ((pyStrip v).length == 0) || decide (1000 < v.length))) : ℕ)
    let validity_percentage : ℚ :=
      if 0 < total_checked then ((total_checked - invalid_count : ℤ) : ℚ) / (total_checked : ℚ) * 100 else 0
    let invalid_percentage : ℚ :=
      if 0 < total_checked then (invalid_count : ℚ) / (total_checked : ℚ) * 100 else 0
    { score := round1 validity_percentage
    , invalid_count := invalid_count
    , total_checked := total_checked
    , invalid_percentage := some (round1 invalid_percentage) }

/-- One database round trip issued by the service. -/
inductive DBQuery
  | countNonNullQ (col : String)
  | countDistinctQ (col : String)
  | minMaxQ (col : String)
  | sampleFetchQ (limit : ℕ)
deriving DecidableEq, Repr

/-- The loop body of _get_batch_completeness_stats for one column. -/
def completeness_stat (t : Table) (total_records : ℤ) (kv : String × ColumnInfo) :
    CompletenessResult :=
  let non_null_count := countNonNull t kv.1
  let null_count := total_records - non_null_count
  let completeness_percentage : ℚ :=
    if 0 < total_records then (non_null_count : ℚ) / (total_records : ℚ) * 100 else 0
  let null_percentage : ℚ :=
    if 0 < total_records then (null_count : ℚ) / (total_records : ℚ) * 100 else 0
  { score := round1 completeness_percentage
  , null_count := null_count
  , non_null_count := non_null_count
  , null_percentage := round1 null_percentage }

/-- _get_batch_completeness_stats: one count query per column. -/
def get_batch_completeness_stats (t : Table) (columns_info : List (String × ColumnInfo))
    (total_records : ℤ) : List (String × CompletenessResult) × List DBQuery :=
  ( columns_info.map (fun kv => (kv.1, completeness_stat t total_records kv))
  , columns_info.map (fun kv => DBQuery.countNonNullQ kv.1) )

/-- The loop body of _get_batch_uniqueness_stats for one column. -/
def uniqueness_stat (t : Table) (kv : String × ColumnInfo) : UniquenessResult :=
  let unique_count := countDistinctNonNull t kv.1
  let non_null_count := countNonNull t kv.1
  let uniqueness_percentage : ℚ :=
    if non_null_count = 0 then 0 else (unique_count : ℚ) / (non_null_count : ℚ) * 100
  let duplicate_count : ℤ := if non_null_count = 0 then 0 else non_null_count - unique_count
  { score := round1 uniqueness_percentage
  , unique_count := unique_count
  , duplicate_count := duplicate_count
  , total_non_null := non_null_count }

/-- _get_batch_uniqueness_stats: the loop issues two queries per ID-like
column, a distinct count and a non-null count. -/
def get_batch_uniqueness_stats (t : Table) (id_columns : List (String × ColumnInfo))
    (_total_records : ℤ) : List (String × UniquenessResult) × List DBQuery :=
  ( id_columns.map (fun kv => (kv.1, uniqueness_stat t kv))
  , id_columns.flatMap (fun kv => [DBQuery.countDistinctQ kv.1, DBQuery.countNonNullQ kv.1]) )

/-- The per-column body of _get_batch_timeliness_stats once min and max have
been read, for a clean date column. -/
def timeliness_of_dates (today : ℤ) (ds : List ℤ) : TimelinessResult :=
  match ds.max?, ds.min? with
  | some latest_date, some oldest_date =>
      let days_since_latest := today - latest_date
      { score := freshness_score days_since_latest
      , days_since_latest := days_since_latest
      , avg_age_days := days_since_latest
      , latest_date := some latest_date
      , oldest_date := some oldest_date }
  | _, _ => timeliness_zero_result

/-- Loop of _get_batch_timeliness_stats. A column whose cells are not all
dates makes the Python date arithmetic raise; the surrounding try covers the
whole loop, so the stats collected so far are discarded while the queries
already issued remain in the trace. -/
def batch_timeliness_loop (today : ℤ) (t : Table) :
    List String → List (String × TimelinessResult) × List DBQuery × Bool
  | [] => ([], [], false)
  | c :: rest =>
      if allDates t c then
        let r := timeliness_of_dates today (datesOf t c)
        let (stats, qs, exc) := batch_timeliness_loop today t rest
        if exc then ([], DBQuery.minMaxQ c :: qs, true)
        else ((c, r) :: stats, DBQuery.minMaxQ c :: qs, false)
      else
        ([], [DBQuery.minMaxQ c], true)

/-- _get_batch_timeliness_stats: one min and max query per date column. -/
def get_batch_timeliness_stats (today : ℤ) (t : Table)
    (date_columns : List (String × ColumnInfo)) : List (String × TimelinessResult) × List DBQuery :=
  let (stats, qs, _) := batch_timeliness_loop today t (date_columns.map Prod.fst)
  (stats, qs)

/-- The stringified non-null sample values of one column, capped at 100. -/
def sample_column_values (t : Table) (sample_size : ℕ) (kv : String × ColumnInfo) :
    List String :=
  ((t.rows.take sample_size).filterMap (fun r => (rowGet r kv.1).map Value.toStr)).take 100

/-- _get_sample_data_for_patterns: one bounded fetch shared by all columns,
at most sample_size records, at most 100 stringified values per column. -/
def get_sample_data_for_patterns (t : Table) (columns_info : List (String × ColumnInfo))
    (sample_size : ℕ) : List (String × List String) × List DBQuery :=
  ( columns_info.map (fun kv => (kv.1, sample_column_values t sample_size kv))
  , [DBQuery.sampleFetchQ sample_size] )

/-- _assess_completeness (per-column path). -/
def assess_completeness (t : Table) (column_name : String) (total_records : ℤ) : CompletenessResult :=
  let null_count := countNullRows t column_name
  let non_null_count := total_records - null_count
  let completeness_percentage : ℚ :=
    if 0 < total_records then (non_null_count : ℚ) / (total_records : ℚ) * 100 else 0
  let null_percentage : ℚ :=
    if 0 < total_records then (null_count : ℚ) / (total_records : ℚ) * 100 else 0
  { score := round1 completeness_percentage
  , null_count := null_count
  , non_null_count := non_null_count
  , null_percentage := round1 null_percentage }

/-- _assess_uniqueness (per-column path). -/
def assess_uniqueness (t : Table) (column_name : String) (_total_records : ℤ) : UniquenessResult :=
  let unique_count := countDistinctNonNull t column_name
  let non_null_count := countNonNull t column_name
  let uniqueness_percentage : ℚ :=
    if non_null_count = 0 then 0 else (unique_count : ℚ) / (non_null_count : ℚ) * 100
  let duplicate_count : ℤ := if non_null_count = 0 then 0 else non_null_count - unique_count
  { score := round1 uniqueness_percentage
  , unique_count := unique_count
  , duplicate_count := duplicate_count
  , total_non_null := non_null_count }

/-- _assess_consistency (per-column path): fetches up to 1000 non-null values
and checks all of them, unlike the sampled batch path. -/
def assess_consistency (t : Table) (column_info : ColumnInfo) (column_name : String) : ConsistencyResult :=
  let sample_values := ((nonNullValues t column_name).take 1000).map Value.toStr
  if sample_values.isEmpty then
    { score := 0, pattern_violations := 0, total_checked := 0 }
  else
    let total_checked : ℤ := (sample_values.length : ℕ)
    let violations : ℤ :=
      if strIn "date" (pyLower column_name) then check_date_patterns sample_values
      else if strIn "id" (pyLower column_name) then check_id_patterns sample_values
      else check_general_patterns sample_values column_info
    let consistency_percentage : ℚ :=
      if 0 < total_checked then ((total_checked - violations : ℤ) : ℚ) / (total_checked : ℚ) * 100 else 0
    let violation_percentage : ℚ :=
      if 0 < total_checked then (violations : ℚ) / (total_checked : ℚ) * 100 else 0
    { score := round1 consistency_percentage
    , pattern_violations := violations
    , total_checked := total_checked
    , violation_percentage := some (round1 violation_percentage) }

/-- _check_date_validity: rows beyond today plus rows before 1900-01-01
(day 0 of the model). Any non-date cell in the column makes the SQL
comparison fail, and the bare except then yields 0. -/
def check_date_validity (today : ℤ) (t : Table) (column_name : String) : ℤ :=
  if allDates t column_name then
    (((colValues t column_name).countP (fun v =>
        match v with | some (.vdate d) => decide (today < d) | _ => false)) : ℕ) +
    (((colValues t column_name).countP (fun v =>
        match v with | some (.vdate d) => decide (d < 0) | _ => false)) : ℕ)
  else 0

/-- Blank test used by the remaining validity checks: length(trim(col)) < 1
on non-null cells. -/
def blankCellCount (t : Table) (column_name : String) : ℤ :=
  (((colValues t column_name).countP (fun v =>
      match v with | some w => (pyStrip w.toStr).length == 0 | none => false)) : ℕ)

/-- _check_id_validity. -/
def check_id_validity (t : Table) (column_name : String) : ℤ :=
  blankCellCount t column_name

/-- _check_categorical_validity. -/
def check_categorical_validity (t : Table) (column_name : String) : ℤ :=
  blankCellCount t column_name

/-- _check_general_validity. In the LLM-guided path the dict passed as
column_info carries a data_type key but no type key, so the lookup raises
KeyError and the bare except yields 0: the type argument is None there. -/
def check_general_validity (t : Table) (column_name : String)
    (column_info_type : Option String) : ℤ :=
  match column_info_type with
  | none => 0
  | some ty =>
      if strIn "varchar" (pyLower ty) || strIn "text" (pyLower ty) then blankCellCount t column_name
      else 0

/-- _assess_validity (per-column path). -/
def assess_validity (today : ℤ) (t : Table) (column_info_type : Option String)
    (column_name : String) (_total_records : ℤ) : ValidityResult :=
  let total_checked := countNonNull t column_name
  if total_checked = 0 then
    { score := 0, invalid_count := 0, total_checked := 0 }
  else
    let invalid_count : ℤ :=
      if strIn "date" (pyLower column_name) then check_date_validity today t column_name
      else if strIn "id" (pyLower column_name) then check_id_validity t column_name
      else if column_name ∈ (["status", "region", "branch"] : List String) then
        check_categorical_validity t column_name
      else check_general_validity t column_name column_info_type
    let validity_percentage : ℚ :=
      if 0 < total_checked then ((total_checked - invalid_count : ℤ) : ℚ) / (total_checked : ℚ) * 100 else 0
    let invalid_percentage : ℚ :=
      if 0 < total_checked then (invalid_count : ℚ) / (total_checked : ℚ) * 100 else 0
    { score := round1 validity_percentage
    , invalid_count := invalid_count
    , total_checked := total_checked
    , invalid_percentage := some (round1 invalid_percentage) }

/-- _assess_timeliness (per-column path). -/
def assess_timeliness (today : ℤ) (t : Table) (column_name : String) : TimelinessResult :=
  if allDates t column_name then
    timeliness_of_dates today (datesOf t column_name)
  else
    timeliness_zero_result

/-- The per-column dict assembled by the deterministic path. Absent dimension
keys are the none fields. -/
structure ColumnHealth where
  data_type : String
  is_critical : Bool
  overall_column_score : ℚ
  issues : List String
  recommendations : List String
  completeness : Option CompletenessResult := none
  uniqueness : Option UniquenessResult := none
  consistency : Option ConsistencyResult := none
  validity : Option ValidityResult := none
  timeliness : Option TimelinessResult := none
deriving DecidableEq, Repr

/-- Score of one dimension key of a deterministic column dict, when present. -/
def det_dim_score (ch : ColumnHealth) (d : String) : Option ℚ :=
  if d = "completeness" then ch.completeness.map (fun r => r.score)
  else if d = "uniqueness" then ch.uniqueness.map (fun r => r.score)
  else if d = "consistency" then ch.consistency.map (fun r => r.score)
  else if d = "validity" then ch.validity.map (fun r => r.score)
  else if d = "timeliness" then ch.timeliness.map (fun r => r.score)
  else none

/-- The scores and weights lists built by the loop of _calculate_column_score,
zipped into pairs: one entry per dimension present, in weight-table order. -/
def score_weight_pairs (ch : ColumnHealth) : List (ℚ × ℚ) :=
  DIMENSION_WEIGHTS.filterMap (fun kv => (det_dim_score ch kv.1).map (fun s => (s, kv.2)))

/-- _calculate_column_score: weighted average over the dimensions present. -/
def calculate_column_score (ch : ColumnHealth) : ℚ :=
  let pairs := score_weight_pairs ch
  if pairs.isEmpty then 0
  else
    let total_weight := (pairs.map (fun p => p.2)).sum
    let weighted_sum := (pairs.map (fun p => p.1 * p.2)).sum
    if 0 < total_weight then round1 (weighted_sum / total_weight) else 0

/-- _generate_column_issues_and_recommendations (deterministic path); returns
the issues and recommendations lists it stores on the column dict. -/
def generate_column_issues_and_recommendations (ch : ColumnHealth) (column_name : String)
    (_is_critical : Bool) : List String × List String :=
  let completenessPart : List String × List String :=
    match ch.completeness with
    | some c =>
        if 20 < c.null_percentage then
          ( [toString c.null_percentage ++ "% missing values"]
          , ["Address " ++ toString c.null_count ++ " missing " ++ column_name ++ " values"] )
        else if 5 < c.null_percentage then
          ([toString c.null_percentage ++ "% missing values"], [])
        else ([], [])
    | none => ([], [])
  let uniquenessPart : List String × List String :=
    match ch.uniqueness with
    | some u =>
        if 0 < u.duplicate_count then
          ( [toString u.duplicate_count ++ " duplicate values"]
          , ["Investigate " ++ toString u.duplicate_count ++ " duplicate " ++ column_name ++ " entries"] )
        else ([], [])
    | none => ([], [])
  let consistencyPart : List String × List String :=
    match ch.consistency with
    | some c =>
        if 0 < c.pattern_violations then
          ( [toString c.pattern_violations ++ " format violations"]
          , ["Standardize " ++ column_name ++ " format"] )
        else ([], [])
    | none => ([], [])
  let validityPart : List String × List String :=
    match ch.validity with
    | some v =>
        if 0 < v.invalid_count then
          ( [toString v.invalid_count ++ " invalid values"]
          , ["Fix " ++ toString v.invalid_count ++ " invalid " ++ column_name ++ " values"] )
        else ([], [])
    | none => ([], [])
  let timelinessPart : List String × List String :=
    match ch.timeliness with
    | some tl =>
        if 30 < tl.days_since_latest then
          ( ["Data is " ++ toString tl.days_since_latest ++ " days old"]
          , ["Update " ++ column_name ++ " data (last update: " ++ toString tl.days_since_latest ++ " days ago)"] )
        else ([], [])
    | none => ([], [])
  ( completenessPart.1 ++ uniquenessPart.1 ++ consistencyPart.1 ++ validityPart.1 ++ timelinessPart.1
  , completenessPart.2 ++ uniquenessPart.2 ++ consistencyPart.2 ++ validityPart.2 ++ timelinessPart.2 )

/-- The loop body of _assess_all_columns_optimized for one column. The batch
stat helpers are pure functions of the table, so the body recomputes them
instead of capturing the dicts built once before the loop; the value is the
same. -/
def build_column_health (today : ℤ) (t : Table)
    (columns_info : List (String × ColumnInfo)) (schema_type : String) (total_records : ℤ)
    (kv : String × ColumnInfo) : ColumnHealth :=
  let critical_fields := (CRITICAL_FIELDS.lookup schema_type).getD []
  let column_name := kv.1
  let is_critical := critical_fields.contains column_name
  let ch0 : ColumnHealth :=
    { data_type := kv.2.type
    , is_critical := is_critical
    , overall_column_score := 0
    , issues := []
    , recommendations := []
    , completeness :=
        (get_batch_completeness_stats t columns_info total_records).1.lookup column_name
    , uniqueness :=
        (get_batch_uniqueness_stats t
          (columns_info.filter (fun kv2 => should_assess_uniqueness kv2.1 kv2.2))
          total_records).1.lookup column_name
    , timeliness :=
        (get_batch_timeliness_stats today t
          (columns_info.filter (fun kv2 => is_date_column kv2.2))).1.lookup column_name
    , consistency := ((get_sample_data_for_patterns t columns_info 500).1.lookup column_name).map
        (fun vs => assess_consistency_from_sample vs kv.2 column_name)
    , validity := ((get_sample_data_for_patterns t columns_info 500).1.lookup column_name).map
        (fun vs => assess_validity_from_sample vs kv.2 column_name) }
  let score := calculate_column_score ch0
  let ir := generate_column_issues_and_recommendations ch0 column_name is_critical
  { ch0 with overall_column_score := score, issues := ir.1, recommendations := ir.2 }

/-- _assess_all_columns_optimized: the four query batches, then the in-memory
assembly of each column dict. Also returns the full query trace. -/
def assess_all_columns_optimized (today : ℤ) (t : Table)
    (columns_info : List (String × ColumnInfo)) (schema_type : String) (total_records : ℤ) :
    List (String × ColumnHealth) × List DBQuery :=
  let completenessPair := get_batch_completeness_stats t columns_info total_records
  let id_columns := columns_info.filter (fun kv => should_assess_uniqueness kv.1 kv.2)
  let uniquenessPair := get_batch_uniqueness_stats t id_columns total_records
  let date_columns := columns_info.filter (fun kv => is_date_column kv.2)
  let timelinessPair := get_batch_timeliness_stats today t date_columns
  let samplePair := get_sample_data_for_patterns t columns_info 500
  let column_analysis := columns_info.map (fun kv =>
    (kv.1, build_column_health today t columns_info schema_type total_records kv))
  (column_analysis, completenessPair.2 ++ uniquenessPair.2 ++ timelinessPair.2 ++ samplePair.2)

/-- One entry of the overall_health.dimensions map. -/
structure DimensionEntry where
  score : ℚ
  weight : ℚ
  columns_assessed : Option ℕ := none
deriving DecidableEq, Repr

/-- The per-dimension score lists collected by the loop of assess_data_health.
The source builds a defaultdict keyed only by dimensions that occur; the
downstream reads use .get(dimension, []), so the representation keyed by all
five canonical dimensions with [] for an absent one is read-equivalent. -/
def collect_overall_scores (column_analysis : List (String × ColumnHealth)) :
    List (String × List ℚ) :=
  CANONICAL_DIMENSIONS.map (fun d =>
    (d, column_analysis.filterMap (fun p => det_dim_score p.2 d)))

/-- _calculate_overall_dimensions. -/
def calculate_overall_dimensions (overall_scores : List (String × List ℚ)) :
    List (String × DimensionEntry) :=
  DIMENSION_WEIGHTS.map (fun kv =>
    let scores := (overall_scores.lookup kv.1).getD []
    let avg_score : ℚ := if scores.isEmpty then 0 else scores.sum / (scores.length : ℚ)
    (kv.1, { score := round1 avg_score, weight := kv.2 }))

/-- _calculate_weighted_score. -/
def calculate_weighted_score (dimensions : List (String × DimensionEntry)) : ℚ :=
  let total_weight := (dimensions.map (fun p => p.2.weight)).sum
  let weighted_sum := (dimensions.map (fun p => p.2.score * p.2.weight)).sum
  if 0 < total_weight then weighted_sum / total_weight else 0

/-- _get_health_grade: the descending threshold ladder. -/
def get_health_grade (score : ℚ) : String :=
  if 85 ≤ score then "Excellent"
  else if 70 ≤ score then "Good"
  else if 50 ≤ score then "Poor"
  else "Bad"

/-- Rank of a grade under the order Bad < Poor < Good < Excellent. -/
def grade_rank : String → ℕ
  | "Poor" => 1
  | "Good" => 2
  | "Excellent" => 3
  | _ => 0

/-- One prioritized issue of the summary. -/
structure IssueEntry where
  severity : String
  column : String
  issue : String
  impact : String
deriving DecidableEq, Repr

/-- critical_fields block of the summary. -/
structure CriticalFieldsSummary where
  total : ℕ
  healthy : ℕ
  warning : ℕ
  critical : ℕ
  avg_score : ℚ
deriving DecidableEq, Repr

/-- recommendations block of the summary. The llm_recommendations key exists
only on the LLM-enhanced summary. -/
structure Recommendations where
  immediate : List String
  short_term : List String
  long_term : List String
  llm_recommendations : Option (List String) := none
deriving DecidableEq, Repr

/-- llm_insights block of the LLM-enhanced summary. -/
structure DimensionOptimization where
  total_possible_checks : ℕ
  total_actual_checks : ℕ
  checks_skipped : ℤ
  optimization_percentage : ℚ
deriving DecidableEq, Repr

structure IntelligentSkips where
  skip_counts : List (String × ℕ)
  skip_reasons : List (String × List String)
deriving DecidableEq, Repr

structure SummaryLLMInsights where
  dimension_optimization : DimensionOptimization
  intelligent_skips : IntelligentSkips
  priority_distribution : List (String × ℕ)
deriving DecidableEq, Repr

/-- summary block of a health report. The empty report carries no
recommendations key; the LLM-enhanced summary adds llm_insights. -/
structure Summary where
  critical_fields : CriticalFieldsSummary
  top_issues : List IssueEntry
  recommendations : Option Recommendations := none
  llm_insights : Option SummaryLLMInsights := none
deriving DecidableEq, Repr

/-- The two keys _generate_summary reads from each column dict, via .get with
defaults 0 and []. -/
structure SummaryInput where
  overall_column_score : ℚ
  issues : List String
deriving DecidableEq, Repr

/-- _get_impact_description. -/
def get_impact_description (column_name : String) (issue : String) (is_critical : Bool) : String :=
  if is_critical then
    if strIn "missing" (pyLower issue) then
      "Critical field " ++ column_name ++ " missing values affects data reliability"
    else if strIn "duplicate" (pyLower issue) then
      "Duplicate " ++ column_name ++ " values may indicate data integration issues"
    else if strIn "invalid" (pyLower issue) then
      "Invalid " ++ column_name ++ " values compromise data quality"
    else
      "Issues with critical field " ++ column_name ++ " affect overall data integrity"
  else
    "Data quality issues in " ++ column_name ++ " may impact analysis accuracy"

/-- severity_order.get(severity, 3). -/
def severity_order : String → ℕ
  | "high" => 0
  | "medium" => 1
  | "low" => 2
  | _ => 3

/-- Stable insertion of an issue behind every issue of lower or equal rank. -/
def insert_issue_sorted (x : IssueEntry) : List IssueEntry → List IssueEntry
  | [] => [x]
  | y :: ys =>
      if severity_order y.severity ≤ severity_order x.severity then y :: insert_issue_sorted x ys
      else x :: y :: ys

/-- Stable sort by severity rank, modelling the stable Python list.sort. -/
def sort_issues : List IssueEntry → List IssueEntry
  | [] => []
  | x :: xs => insert_issue_sorted x (sort_issues xs)

/-- _generate_recommendations. -/
def generate_recommendations (issues : List IssueEntry) : Recommendations :=
  let high_severity_issues := issues.filter (fun i => i.severity == "high")
  let immediate := (high_severity_issues.take 3).map (fun i =>
    "Fix " ++ i.issue ++ " in " ++ i.column)
  let medium_issues := issues.filter (fun i => i.severity == "medium")
  let short_term := (medium_issues.take 3).map (fun i =>
    "Address " ++ i.issue ++ " in " ++ i.column)
  let long_term :=
    (if issues.any (fun i => strIn "format" (pyLower i.issue)) then
      ["Implement data validation rules at ingestion"] else []) ++
    (if issues.any (fun i => strIn "duplicate" (pyLower i.issue)) then
      ["Set up automated duplicate detection"] else []) ++
    (if issues.any (fun i => strIn "missing" (pyLower i.issue)) then
      ["Establish data completeness monitoring"] else []) ++
    ["Set up automated data quality monitoring"]
  { immediate := if immediate.isEmpty then ["No immediate actions required"] else immediate
  , short_term := if short_term.isEmpty then ["Monitor data quality trends"] else short_term
  , long_term := long_term }

/-- _generate_summary over the two keys it reads from each column dict. -/
def generate_summary (column_analysis : List (String × SummaryInput)) (schema_type : String) :
    Summary :=
  let critical_fields := (CRITICAL_FIELDS.lookup schema_type).getD []
  let criticalColumns := column_analysis.filter (fun p => critical_fields.contains p.1)
  let critical_scores := criticalColumns.map (fun p => p.2.overall_column_score)
  let healthy_fields := criticalColumns.countP (fun p => decide (80 ≤ p.2.overall_column_score))
  let warning_fields := criticalColumns.countP (fun p =>
    decide (60 ≤ p.2.overall_column_score) && decide (p.2.overall_column_score < 80))
  let critical_issues := criticalColumns.countP (fun p => decide (p.2.overall_column_score < 60))
  let all_issues := column_analysis.flatMap (fun p =>
    let column_score := p.2.overall_column_score
    let is_critical := critical_fields.contains p.1
    p.2.issues.map (fun issue =>
      let severity :=
        if is_critical && decide (column_score < 60) then "high"
        else if column_score < 70 then "medium"
        else "low"
      { severity := severity
      , column := p.1
      , issue := issue
      , impact := get_impact_description p.1 issue is_critical : IssueEntry }))
  let sorted_issues := sort_issues all_issues
  { critical_fields :=
      { total := critical_fields.length
      , healthy := healthy_fields
      , warning := warning_fields
      , critical := critical_issues
      , avg_score :=
          if critical_scores.isEmpty then 0
          else round1 (critical_scores.sum / (critical_scores.length : ℚ)) }
  , top_issues := sorted_issues.take 5
  , recommendations := some (generate_recommendations sorted_issues) }

/-- llm_insights block of the LLM report body. -/
structure LLMReportInsights where
  total_columns_analyzed : ℕ
  dimension_selections_made : ℕ
deriving DecidableEq, Repr

/-- overall_health block. -/
structure OverallHealth where
  score : ℚ
  grade : String
  dimensions : List (String × DimensionEntry)
deriving DecidableEq, Repr

/-- A health report, generic in the shape of one column analysis entry so the
deterministic and the LLM-guided reports share the empty template. The
assessment_timestamp and performance_metrics keys are wall-clock data outside
the model. -/
structure HealthReportG (α : Type) where
  schema_type : String
  total_records : ℤ
  overall_health : OverallHealth
  column_analysis : List (String × α)
  summary : Summary
  assessment_type : Option String := none
  llm_insights : Option LLMReportInsights := none
deriving DecidableEq, Repr

/-- _empty_health_report: the template returned when no data exists. -/
def empty_health_report {α : Type} (schema_type : String) : HealthReportG α :=
  { schema_type := schema_type
  , total_records := 0
  , overall_health :=
      { score := 0
      , grade := "N/A"
      , dimensions :=
          [ ("completeness", { score := 0, weight := 25 })
          , ("uniqueness", { score := 0, weight := 10 })
          , ("consistency", { score := 0, weight := 20 })
          , ("validity", { score := 0, weight := 20 })
          , ("timeliness", { score := 0, weight := 25 }) ] }
  , column_analysis := []
  , summary :=
      { critical_fields := { total := 0, healthy := 0, warning := 0, critical := 0, avg_score := 0 }
      , top_issues := [] } }

/-- assess_data_health: the deterministic entry point. The database and the
introspected model columns are parameters standing for the model classes of
src/models/unsafe_event_models.py, which is not under src/. -/
def assess_data_health (today : ℤ) (db : String → Table)
    (columnsOf : String → List (String × ColumnInfo)) (schema_type : String) :
    Except String (HealthReportG ColumnHealth) :=
  if !MODEL_MAPPING_KEYS.contains schema_type then
    Except.error ("Unknown schema type: " ++ schema_type)
  else
    let t := db schema_type
    let total_records : ℤ := (t.rows.length : ℕ)
    if total_records = 0 then Except.ok (empty_health_report schema_type)
    else
      let columns_info := columnsOf schema_type
      let analysis_columns := columns_info.filter (fun kv =>
        !(["id", "created_at", "updated_at"] : List String).contains kv.1)
      let column_analysis :=
        (assess_all_columns_optimized today t analysis_columns schema_type total_records).1
      let overall_scores := collect_overall_scores column_analysis
      let overall_dimensions := calculate_overall_dimensions overall_scores
      let overall_score := calculate_weighted_score overall_dimensions
      let health_grade := get_health_grade overall_score
      let summary := generate_summary
        (column_analysis.map (fun p => (p.1,
          { overall_column_score := p.2.overall_column_score, issues := p.2.issues : SummaryInput })))
        schema_type
      Except.ok
        { schema_type := schema_type
        , total_records := total_records
        , overall_health :=
            { score := round1 overall_score
            , grade := health_grade
            , dimensions := overall_dimensions }
        , column_analysis := column_analysis
        , summary := summary }

/-- A dimension selection as the LLM-guided pipeline reads it from the
selector output dict, through .get calls with these defaults. -/
structure DimSelection where
  dimensions_to_check : List String
  dimensions_to_skip : List String
  reasoning : List (String × String)
  priority : String
deriving DecidableEq, Repr

/-- _get_default_dimensions of LLMDimensionSelector, as the pipeline reads it. -/
def get_default_dimensions : DimSelection :=
  { dimensions_to_check := ["completeness", "uniqueness", "consistency", "validity", "timeliness"]
  , dimensions_to_skip := []
  , reasoning :=
      [ ("completeness", "Default check - all fields should have data")
      , ("uniqueness", "Default check - assess uniqueness patterns")
      , ("consistency", "Default check - validate data patterns")
      , ("validity", "Default check - ensure data meets basic rules")
      , ("timeliness", "Default check - assess data freshness") ]
  , priority := "medium" }

/-- One column entry of the semantic configuration JSON; only the data_type
key reaches the scorers, the remaining keys only feed the LLM prompt. -/
structure ColumnData where
  data_type : Option String := none
deriving DecidableEq, Repr

/-- The per-column dict assembled by the LLM-guided path. -/
structure ColumnResultLLM where
  dimensions_checked : List String
  dimensions_skipped : List String
  llm_reasoning : List (String × String)
  priority : String
  completeness : Option CompletenessResult := none
  uniqueness : Option UniquenessResult := none
  consistency : Option ConsistencyResult := none
  validity : Option ValidityResult := none
  timeliness : Option TimelinessResult := none
  overall_column_score : ℚ
  issues : List String
  recommendations : List String
  error : Option String := none
deriving DecidableEq, Repr

/-- Score of one dimension key of an LLM-guided column dict, when present. -/
def llm_dim_score (cr : ColumnResultLLM) (d : String) : Option ℚ :=
  if d = "completeness" then cr.completeness.map (fun r => r.score)
  else if d = "uniqueness" then cr.uniqueness.map (fun r => r.score)
  else if d = "consistency" then cr.consistency.map (fun r => r.score)
  else if d = "validity" then cr.validity.map (fun r => r.score)
  else if d = "timeliness" then cr.timeliness.map (fun r => r.score)
  else none

/-- Deduplication keeping the first occurrence, as dict insertion does. -/
def dedupFirstAux (seen : List String) : List String → List String
  | [] => []
  | x :: xs => if seen.contains x then dedupFirstAux seen xs else x :: dedupFirstAux (x :: seen) xs

def dedupFirst (l : List String) : List String := dedupFirstAux [] l

/-- The dict comprehension of _calculate_column_score_llm_guided: weights of
the checked dimensions that are canonical, keyed without duplicates. -/
def active_weights (dimensions_checked : List String) : List (String × ℚ) :=
  (dedupFirst (dimensions_checked.filter (fun d => (DIMENSION_WEIGHTS.lookup d).isSome))).map
    (fun d => (d, weightOf d))

/-- The weights renormalized to sum to 100 over the checked subset. -/
def normalized_weights (dimensions_checked : List String) : List (String × ℚ) :=
  let active := active_weights dimensions_checked
  let total_weight := (active.map (fun p => p.2)).sum
  active.map (fun p => (p.1, p.2 / total_weight * 100))

/-- _calculate_column_score_llm_guided. -/
def calculate_column_score_llm_guided (cr : ColumnResultLLM) (dimensions_checked : List String) : ℚ :=
  if dimensions_checked.isEmpty then 0
  else if (active_weights dimensions_checked).isEmpty then 0
  else
    let normalized := normalized_weights dimensions_checked
    let weighted_score := (dimensions_checked.map (fun d =>
      match llm_dim_score cr d with
      | some s => s * ((normalized.lookup d).getD 0) / 100
      | none => 0)).sum
    round1 weighted_score

/-- _generate_column_issues_and_recommendations_llm. -/
def generate_column_issues_and_recommendations_llm (cr : ColumnResultLLM) (column_name : String)
    (dimension_selection : DimSelection) : List String × List String :=
  let reasoning := dimension_selection.reasoning
  let priority := dimension_selection.priority
  let perDim := cr.dimensions_checked.map (fun dimension =>
    match llm_dim_score cr dimension with
    | some score =>
        if score < 70 then
          let llm_context := (reasoning.lookup dimension).getD ""
          if priority = "critical" then
            ( ["CRITICAL: " ++ dimension ++ " issue in " ++ column_name ++ " - " ++ llm_context]
            , ["URGENT: Address " ++ dimension ++ " in " ++ column_name ++ " immediately - " ++ llm_context] )
          else if score < 50 then
            ( ["Poor " ++ dimension ++ " in " ++ column_name ++ " (score: " ++ toString score ++ ") - " ++ llm_context]
            , ["Improve " ++ dimension ++ " for " ++ column_name ++ " - " ++ llm_context] )
          else
            ( ["Moderate " ++ dimension ++ " issues in " ++ column_name ++ " (score: " ++ toString score ++ ")"]
            , ["Monitor and improve " ++ dimension ++ " for " ++ column_name] )
        else ([], [])
    | none => ([], []))
  let issues0 := perDim.flatMap Prod.fst
  let recs0 := perDim.flatMap Prod.snd
  let recs1 := recs0 ++
    (if !cr.dimensions_skipped.isEmpty then
      ["LLM intelligently skipped " ++ String.intercalate ", " cr.dimensions_skipped ++
        " - not relevant for this field type"]
     else [])
  let recs2 := recs1 ++
    (if priority = "critical" && issues0.isEmpty then
      ["Critical field " ++ column_name ++ " is performing well - maintain current quality standards"]
     else if priority = "low" && !issues0.isEmpty then
      ["Low priority field " ++ column_name ++ " has issues but can be addressed in maintenance cycles"]
     else [])
  ( if issues0.isEmpty then ["No significant data quality issues detected"] else issues0
  , if recs2.isEmpty then ["Column meets quality standards - continue monitoring"] else recs2 )

/-- _assess_single_column_with_llm_guidance. The thread-pool dispatch joins
on every submitted dimension, so the model runs the selected scorers in
order; timeouts and scorer exceptions cannot occur in the pure model. -/
def assess_single_column_with_llm_guidance (today : ℤ) (t : Table) (column_name : String)
    (column_data : ColumnData) (dimension_selection : DimSelection) (total_records : ℤ) :
    ColumnResultLLM :=
  let dims := dimension_selection.dimensions_to_check
  let cr0 : ColumnResultLLM :=
    { dimensions_checked := dims
    , dimensions_skipped := dimension_selection.dimensions_to_skip
    , llm_reasoning := dimension_selection.reasoning
    , priority := dimension_selection.priority
    , completeness :=
        if dims.contains "completeness" then some (assess_completeness t column_name total_records)
        else none
    , uniqueness :=
        if dims.contains "uniqueness" then some (assess_uniqueness t column_name total_records)
        else none
    , consistency :=
        if dims.contains "consistency" then
          some (assess_consistency t { type := (column_data.data_type).getD "string" } column_name)
        else none
    , validity :=
        if dims.contains "validity" then
          some (assess_validity today t none column_name total_records)
        else none
    , timeliness :=
        if dims.contains "timeliness" then some (assess_timeliness today t column_name)
        else none
    , overall_column_score := 0
    , issues := []
    , recommendations := [] }
  let score := calculate_column_score_llm_guided cr0 dims
  let ir := generate_column_issues_and_recommendations_llm cr0 column_name dimension_selection
  { cr0 with overall_column_score := score, issues := ir.1, recommendations := ir.2 }

/-- _assess_columns_with_llm_guidance: the parallel gather joined on all
columns is order-equivalent to this sequential map. -/
def assess_columns_with_llm_guidance (today : ℤ) (t : Table)
    (analysis_columns : List (String × ColumnData))
    (dimension_selections : List (String × DimSelection)) (total_records : ℤ) :
    List (String × ColumnResultLLM) :=
  analysis_columns.map (fun kv =>
    (kv.1, assess_single_column_with_llm_guidance today t kv.1 kv.2
      ((dimension_selections.lookup kv.1).getD get_default_dimensions) total_records))

/-- Append one value under its key in an insertion-ordered multimap, as a
defaultdict(list) does. -/
def append_under_key {β : Type} (acc : List (String × List β)) (k : String) (v : β) :
    List (String × List β) :=
  match acc with
  | [] => [(k, [v])]
  | (k0, vs) :: rest =>
      if k0 = k then (k0, vs ++ [v]) :: rest
      else (k0, vs) :: append_under_key rest k v

/-- Add one to the count of a key in an insertion-ordered counter, as a
defaultdict(int) does. -/
def bump_key (acc : List (String × ℕ)) (k : String) : List (String × ℕ) :=
  match acc with
  | [] => [(k, 1)]
  | (k0, n) :: rest =>
      if k0 = k then (k0, n + 1) :: rest
      else (k0, n) :: bump_key rest k

/-- _calculate_llm_guided_overall_scores: per-dimension score lists over the
columns that checked the dimension, keyed in first-encounter order. -/
def calculate_llm_guided_overall_scores (column_analysis : List (String × ColumnResultLLM)) :
    List (String × DimensionEntry) :=
  let dimension_scores := column_analysis.foldl (fun acc p =>
    p.2.dimensions_checked.foldl (fun acc2 dimension =>
      match llm_dim_score p.2 dimension with
      | some score => append_under_key acc2 dimension score
      | none => acc2) acc) []
  dimension_scores.filterMap (fun p =>
    if p.2.isEmpty then none
    else some (p.1,
      { score := round1 (p.2.sum / (p.2.length : ℚ))
      , weight := (DIMENSION_WEIGHTS.lookup p.1).getD 0
      , columns_assessed := some p.2.length }))

/-- _analyze_dimension_optimization. The Python expression divides by the
number of possible checks and raises ZeroDivisionError on an empty selection
map; the rational model returns 0 there, a state no theorem relies on. -/
def analyze_dimension_optimization (dimension_selections : List (String × DimSelection)) :
    DimensionOptimization :=
  let total_possible_checks : ℕ := dimension_selections.length * 5
  let total_actual_checks : ℕ :=
    (dimension_selections.map (fun p => p.2.dimensions_to_check.length)).sum
  let optimization_percentage : ℚ :=
    ((total_possible_checks : ℚ) - (total_actual_checks : ℚ)) / (total_possible_checks : ℚ) * 100
  { total_possible_checks := total_possible_checks
  , total_actual_checks := total_actual_checks
  , checks_skipped := (total_possible_checks : ℤ) - (total_actual_checks : ℤ)
  , optimization_percentage := round1 optimization_percentage }

/-- _analyze_intelligent_skips. -/
def analyze_intelligent_skips (dimension_selections : List (String × DimSelection)) :
    IntelligentSkips :=
  let step := fun (acc : List (String × ℕ) × List (String × List String)) (p : String × DimSelection) =>
    p.2.dimensions_to_skip.foldl (fun acc2 dimension =>
      let reason := (p.2.reasoning.lookup dimension).getD "No reason provided"
      ( bump_key acc2.1 dimension
      , append_under_key acc2.2 dimension (p.1 ++ ": " ++ reason))) acc
  let res := dimension_selections.foldl step ([], [])
  { skip_counts := res.1, skip_reasons := res.2 }

/-- _analyze_priority_distribution. -/
def analyze_priority_distribution (dimension_selections : List (String × DimSelection)) :
    List (String × ℕ) :=
  dimension_selections.foldl (fun acc p => bump_key acc p.2.priority) []

/-- _enhance_recommendations_with_llm_context. -/
def enhance_recommendations_with_llm_context (basic_recommendations : Recommendations)
    (dimension_selections : List (String × DimSelection)) : Recommendations :=
  let critical_columns := (dimension_selections.filter (fun p => p.2.priority == "critical")).map
    (fun p => p.1)
  let llm_recommendations :=
    (if !critical_columns.isEmpty then
      ["Focus on " ++ toString critical_columns.length ++
        " critical columns identified by semantic analysis: " ++
        String.intercalate ", " (critical_columns.take 5)]
     else []) ++
    (let optimization_analysis := analyze_dimension_optimization dimension_selections
     if 20 < optimization_analysis.optimization_percentage then
      ["LLM optimization reduced validation overhead by " ++
        toString optimization_analysis.optimization_percentage ++
        "% while maintaining quality focus"]
     else [])
  { basic_recommendations with llm_recommendations := some llm_recommendations }

/-- _generate_llm_enhanced_summary. -/
def generate_llm_enhanced_summary (column_analysis : List (String × ColumnResultLLM))
    (schema_type : String) (dimension_selections : List (String × DimSelection)) : Summary :=
  let basic_summary := generate_summary
    (column_analysis.map (fun p => (p.1,
      { overall_column_score := p.2.overall_column_score, issues := p.2.issues : SummaryInput })))
    schema_type
  let llm_insights : SummaryLLMInsights :=
    { dimension_optimization := analyze_dimension_optimization dimension_selections
    , intelligent_skips := analyze_intelligent_skips dimension_selections
    , priority_distribution := analyze_priority_distribution dimension_selections }
  let enhanced_recommendations := enhance_recommendations_with_llm_context
    ((basic_summary.recommendations).getD (generate_recommendations [])) dimension_selections
  { basic_summary with
      recommendations := some enhanced_recommendations
      llm_insights := some llm_insights }

/-- assess_data_health_llm: the LLM-guided entry point. The batch selector
result is a parameter: the external model responses are abstracted as the
selection map it produced, with the default selection standing in for every
failed column. -/
def assess_data_health_llm (today : ℤ) (db : String → Table)
    (semanticsOf : String → List (String × ColumnData))
    (dimension_selections : List (String × DimSelection)) (schema_type : String) :
    Except String (HealthReportG ColumnResultLLM) :=
  if !MODEL_MAPPING_KEYS.contains schema_type then
    Except.error ("Unknown schema type: " ++ schema_type)
  else
    let t := db schema_type
    let total_records : ℤ := (t.rows.length : ℕ)
    if total_records = 0 then Except.ok (empty_health_report schema_type)
    else
      let schema_semantics := semanticsOf schema_type
      let analysis_columns := schema_semantics.filter (fun kv =>
        !(["id", "created_at", "updated_at"] : List String).contains kv.1)
      let column_analysis := assess_columns_with_llm_guidance today t analysis_columns
        dimension_selections total_records
      let overall_scores := calculate_llm_guided_overall_scores column_analysis
      let overall_score := calculate_weighted_score overall_scores
      let health_grade := get_health_grade overall_score
      let summary := generate_llm_enhanced_summary column_analysis schema_type dimension_selections
      Except.ok
        { schema_type := schema_type
        , total_records := total_records
        , overall_health :=
            { score := round1 overall_score
            , grade := health_grade
            , dimensions := overall_scores }
        , column_analysis := column_analysis
        , summary := summary
        , assessment_type := some "llm_enhanced"
        , llm_insights := some
            { total_columns_analyzed := analysis_columns.length
            , dimension_selections_made := dimension_selections.length } }

/-- JSON values, the result type of json.loads. Python floats are idealized
as rationals; the nonstandard NaN and Infinity constants accepted by the
Python decoder fall outside the rational model and are treated as parse
failures here. -/
inductive Json
  | null
  | bool (b : Bool)
  | num (q : ℚ)
  | str (s : String)
  | arr (items : List Json)
  | obj (members : List (String × Json))

/-- JSON whitespace. -/
def wsChar (c : Char) : Bool := c == ' ' || c == '\t' || c == '\n' || c == '\r'

def skipWs : List Char → List Char
  | [] => []
  | c :: cs => if wsChar c then skipWs cs else c :: cs

def hexVal (c : Char) : Option ℕ :=
  if c.isDigit then some (c.toNat - 48)
  else if 'a' ≤ c && c ≤ 'f' then some (c.toNat - 87)
  else if 'A' ≤ c && c ≤ 'F' then some (c.toNat - 55)
  else none

/-- Body of a JSON string after the opening quote, with escape handling.
Surrogate pairing of u escapes is idealized as one code point per escape. -/
def parseStringBody (acc : List Char) : List Char → Option (String × List Char)
  | [] => none
  | c :: rest =>
      if c = quoteChar then some (String.mk acc.reverse, rest)
      else if c = backslashChar then
        match rest with
        | [] => none
        | e :: rest2 =>
            if e = quoteChar then parseStringBody (quoteChar :: acc) rest2
            else if e = backslashChar then parseStringBody (backslashChar :: acc) rest2
            else if e = '/' then parseStringBody ('/' :: acc) rest2
            else if e = 'b' then parseStringBody (Char.ofNat 8 :: acc) rest2
            else if e = 'f' then parseStringBody (Char.ofNat 12 :: acc) rest2
            else if e = 'n' then parseStringBody ('\n' :: acc) rest2
            else if e = 'r' then parseStringBody ('\r' :: acc) rest2
            else if e = 't' then parseStringBody ('\t' :: acc) rest2
            else if e = 'u' then
              match rest2 with
              | h1 :: h2 :: h3 :: h4 :: rest3 =>
                  match hexVal h1, hexVal h2, hexVal h3, hexVal h4 with
                  | some a, some b, some c2, some d =>
                      parseStringBody (Char.ofNat (a * 4096 + b * 256 + c2 * 16 + d) :: acc) rest3
                  | _, _, _, _ => none
              | _ => none
            else none
      else if c.toNat < 32 then none
      else parseStringBody (c :: acc) rest

def digitsVal (ds : List Char) : ℕ :=
  ds.foldl (fun acc d => acc * 10 + (d.toNat - 48)) 0

def pow10 (n : ℕ) : ℚ := (10 : ℚ) ^ n

/-- A JSON number: optional minus, strict integer part, optional fraction,
optional exponent. -/
def parseNumber (cs : List Char) : Option (ℚ × List Char) :=
  let (neg, cs1) : Bool × List Char :=
    match cs with
    | '-' :: rest => (true, rest)
    | _ => (false, cs)
  let intDigits := cs1.takeWhile Char.isDigit
  let cs2 := cs1.dropWhile Char.isDigit
  if intDigits.isEmpty then none
  else if 1 < intDigits.length && intDigits.headD ' ' == '0' then none
  else
    let intPart : ℚ := (digitsVal intDigits : ℚ)
    let (fracPart, cs3) : ℚ × List Char :=
      match cs2 with
      | '.' :: rest =>
          let fds := rest.takeWhile Char.isDigit
          ((digitsVal fds : ℚ) / pow10 fds.length, rest.dropWhile Char.isDigit)
      | _ => (0, cs2)
    let fracOk : Bool :=
      match cs2 with
      | '.' :: rest => !(rest.takeWhile Char.isDigit).isEmpty
      | _ => true
    let (expOk, expFactor, cs4) : Bool × ℚ × List Char :=
      match cs3 with
      | e :: rest =>
          if e == 'e' || e == 'E' then
            let (eneg, rest2) : Bool × List Char :=
              match rest with
              | '-' :: r => (true, r)
              | '+' :: r => (false, r)
              | _ => (false, rest)
            let eds := rest2.takeWhile Char.isDigit
            if eds.isEmpty then (false, 1, rest2)
            else (true, (if eneg then 1 / pow10 (digitsVal eds) else pow10 (digitsVal eds)),
                  rest2.dropWhile Char.isDigit)
          else (true, 1, cs3)
      | [] => (true, 1, cs3)
    if fracOk && expOk then
      some ((if neg then -1 else 1) * (intPart + fracPart) * expFactor, cs4)
    else none

mutual

/-- One JSON value, fuel-bounded recursive descent. -/
def parseValue : ℕ → List Char → Option (Json × List Char)
  | 0, _ => none
  | fuel + 1, cs =>
      let cs := skipWs cs
      match cs with
      | [] => none
      | c :: rest =>
          if c = quoteChar then (parseStringBody [] rest).map (fun p => (Json.str p.1, p.2))
          else if c = lbrace then
            let cs2 := skipWs rest
            match cs2 with
            | d :: rest2 =>
                if d = rbrace then some (Json.obj [], rest2)
                else (parseMembers fuel cs2).map (fun p => (Json.obj p.1, p.2))
            | [] => none
          else if c = '[' then
            let cs2 := skipWs rest
            match cs2 with
            | d :: rest2 =>
                if d = ']' then some (Json.arr [], rest2)
                else (parseItems fuel cs2).map (fun p => (Json.arr p.1, p.2))
            | [] => none
          else
            match cs with
            | 'n' :: 'u' :: 'l' :: 'l' :: r => some (Json.null, r)
            | 't' :: 'r' :: 'u' :: 'e' :: r => some (Json.bool true, r)
            | 'f' :: 'a' :: 'l' :: 's' :: 'e' :: r => some (Json.bool false, r)
            | _ => (parseNumber cs).map (fun p => (Json.num p.1, p.2))

/-- The nonempty member list of a JSON object, up to the closing brace. -/
def parseMembers : ℕ → List Char → Option (List (String × Json) × List Char)
  | 0, _ => none
  | fuel + 1, cs =>
      let cs := skipWs cs
      match cs with
      | [] => none
      | c :: rest =>
          if c = quoteChar then
            match parseStringBody [] rest with
            | some (key, rest2) =>
                match skipWs rest2 with
                | ':' :: rest4 =>
                    match parseValue fuel rest4 with
                    | some (v, rest5) =>
                        match skipWs rest5 with
                        | ',' :: rest7 =>
                            (parseMembers fuel rest7).map (fun p => ((key, v) :: p.1, p.2))
                        | d :: rest7 =>
                            if d = rbrace then some ([(key, v)], rest7) else none
                        | [] => none
                    | none => none
                | _ => none
            | none => none
          else none

/-- The nonempty item list of a JSON array, up to the closing bracket. -/
def parseItems : ℕ → List Char → Option (List Json × List Char)
  | 0, _ => none
  | fuel + 1, cs =>
      match parseValue fuel cs with
      | some (v, rest) =>
          match skipWs rest with
          | ',' :: rest2 => (parseItems fuel rest2).map (fun p => (v :: p.1, p.2))
          | ']' :: rest2 => some ([v], rest2)
          | _ => none
      | none => none

end

/-- json.loads: parse one value and require only whitespace after it. -/
def json_loads (s : String) : Option Json :=
  match parseValue (s.length * 2 + 8) s.toList with
  | some (v, rest) => if (skipWs rest).isEmpty then some v else none
  | none => none

/-- Python membership field in parsed_response on a dict result. -/
def json_has_field (j : Json) (field : String) : Bool :=
  match j with
  | Json.obj members => members.any (fun kv => kv.1 == field)
  | _ => false

/-- str.find for one character: first index or -1. -/
def findCharAux (c : Char) : List Char → ℤ → ℤ
  | [], _ => -1
  | x :: xs, i => if x = c then i else findCharAux c xs (i + 1)

def strFindChar (s : String) (c : Char) : ℤ := findCharAux c s.toList 0

/-- str.rfind for one character: last index or -1. -/
def rfindCharAux (c : Char) : List Char → ℤ → ℤ → ℤ
  | [], _, best => best
  | x :: xs, i, best => rfindCharAux c xs (i + 1) (if x = c then i else best)

def strRFindChar (s : String) (c : Char) : ℤ := rfindCharAux c s.toList 0 (-1)

/-- Python slice s[a:b] for the nonnegative indexes this code produces. -/
def strSlicePy (s : String) (a b : ℤ) : String :=
  String.mk ((s.toList.drop a.toNat).take (b - a).toNat)

/-- The substring handed to json.loads by _parse_llm_response: from the first
opening brace to the last closing brace inclusive. -/
def llm_json_slice (s : String) : String :=
  strSlicePy s (strFindChar s lbrace) (strRFindChar s rbrace + 1)

/-- The fields _parse_llm_response validates on the parsed dict. The priority
key is not among them. -/
def required_fields : List String := ["dimensions_to_check", "dimensions_to_skip", "reasoning"]

/-- The default selection dict of _get_default_dimensions, as a JSON value. -/
def default_dimensions_json : Json :=
  Json.obj
    [ ("dimensions_to_check", Json.arr
        [ Json.str "completeness", Json.str "uniqueness", Json.str "consistency"
        , Json.str "validity", Json.str "timeliness" ])
    , ("dimensions_to_skip", Json.arr [])
    , ("reasoning", Json.obj
        [ ("completeness", Json.str "Default check - all fields should have data")
        , ("uniqueness", Json.str "Default check - assess uniqueness patterns")
        , ("consistency", Json.str "Default check - validate data patterns")
        , ("validity", Json.str "Default check - ensure data meets basic rules")
        , ("timeliness", Json.str "Default check - assess data freshness") ])
    , ("priority", Json.str "medium") ]

/-- _parse_llm_response. The slice condition of the source tests that find
returned an index and that rfind plus one is not -1, which is always true. A
parse failure raises json.JSONDecodeError, caught to the default; a parsed
dict missing a required field falls through to the default return. -/
def parse_llm_response (llm_response : String) : Json :=
  let start_idx := strFindChar llm_response lbrace
  let end_idx := strRFindChar llm_response rbrace + 1
  if start_idx ≠ -1 ∧ end_idx ≠ -1 then
    let json_str := llm_json_slice llm_response
    match json_loads json_str with
    | some parsed_response =>
        if required_fields.all (fun f => json_has_field parsed_response f) then parsed_response
        else default_dimensions_json
    | none => default_dimensions_json
  else default_dimensions_json

/-- The dimension subset used by the C3 witness. -/
def c3_example_subset : List String := ["completeness", "validity"]

/-- A well-formed LLM response that carries the three validated fields but no
priority key. -/
def c4_example_response : String :=
  "\x7b\"dimensions_to_check\": [\"completeness\"], \"dimensions_to_skip\": [], \"reasoning\": \x7b\x7d\x7d"

/-- A table of 600 records with one non-null string column c. -/
def c8_example_table : Table :=
  { rows := List.replicate 600 [("c", some (Value.vstr "x"))] }

/-- A one-record table with a single column that is neither ID-like nor
date-typed. -/
def c1_example_table : Table :=
  { rows := [[("region", some (Value.vstr "EU"))]] }

def c1_example_columns : List (String × ColumnInfo) :=
  [("region", { type := "VARCHAR" })]

/-- A one-record table with a single ID-like column. -/
def c9_example_table : Table :=
  { rows := [[("event_id", some (Value.vstr "a1"))]] }

def c9_example_columns : List (String × ColumnInfo) :=
  [("event_id", { type := "VARCHAR" })]

/-- The dimension keys present on a deterministic column dict, in canonical
order: the dimensions actually checked for that column. -/
def present_dimensions (ch : ColumnHealth) : List String :=
  CANONICAL_DIMENSIONS.filter (fun d => (det_dim_score ch d).isSome)

/-- The dimension keys present on an LLM-guided column dict, in canonical
order: the dimensions actually checked for that column. -/
def llm_present_dimensions (cr : ColumnResultLLM) : List String :=
  CANONICAL_DIMENSIONS.filter (fun d => (llm_dim_score cr d).isSome)

/-! Helper lemmas. -/

theorem roundHalfEven_le (q : ℚ) : (roundHalfEven q : ℚ) ≤ q + 1/2 := by
  unfold roundHalfEven
  have hf1 : ((⌊q⌋ : ℤ) : ℚ) ≤ q := Int.floor_le q
  have hf2 : q < (⌊q⌋ : ℚ) + 1 := Int.lt_floor_add_one q
  split_ifs with h1 h2 h3 <;> simp only [not_lt] at * <;> push_cast <;> linarith

theorem le_roundHalfEven (q : ℚ) : q - 1/2 ≤ (roundHalfEven q : ℚ) := by
  unfold roundHalfEven
  have hf1 : ((⌊q⌋ : ℤ) : ℚ) ≤ q := Int.floor_le q
  have hf2 : q < (⌊q⌋ : ℚ) + 1 := Int.lt_floor_add_one q
  split_ifs with h1 h2 h3 <;> simp only [not_lt] at * <;> push_cast <;> linarith

theorem round1_bounds {q : ℚ} (h0 : 0 ≤ q) (h1 : q ≤ 100) :
    0 ≤ round1 q ∧ round1 q ≤ 100 := by
  unfold round1
  have hle := roundHalfEven_le (q * 10)
  have hge := le_roundHalfEven (q * 10)
  have h2 : (-1 : ℤ) < roundHalfEven (q * 10) := by
    have : (-1 : ℚ) < (roundHalfEven (q * 10) : ℚ) := by linarith
    exact_mod_cast this
  have h3 : roundHalfEven (q * 10) < 1001 := by
    have : ((roundHalfEven (q * 10) : ℚ)) < 1001 := by linarith
    exact_mod_cast this
  have h4 : (0 : ℚ) ≤ (roundHalfEven (q * 10) : ℚ) := by
    have : (0 : ℤ) ≤ roundHalfEven (q * 10) := by omega
    exact_mod_cast this
  have h5 : ((roundHalfEven (q * 10) : ℤ) : ℚ) ≤ 1000 := by
    have : roundHalfEven (q * 10) ≤ 1000 := by omega
    exact_mod_cast this
  constructor
  · exact div_nonneg h4 (by norm_num)
  · rw [div_le_iff₀ (by norm_num : (0:ℚ) < 10)]
    linarith

theorem round1_zero : round1 0 = 0 := by
  norm_num [round1, roundHalfEven]

theorem round1_nonneg {q : ℚ} (h0 : 0 ≤ q) : 0 ≤ round1 q := by
  unfold round1
  have hge := le_roundHalfEven (q * 10)
  have h2 : (-1 : ℤ) < roundHalfEven (q * 10) := by
    have : (-1 : ℚ) < (roundHalfEven (q * 10) : ℚ) := by linarith
    exact_mod_cast this
  have h4 : (0 : ℚ) ≤ (roundHalfEven (q * 10) : ℚ) := by
    have : (0 : ℤ) ≤ roundHalfEven (q * 10) := by omega
    exact_mod_cast this
  exact div_nonneg h4 (by norm_num)

theorem frac_mul_100_bounds {a b : ℚ} (h0 : 0 ≤ a) (hab : a ≤ b) (hb : 0 < b) :
    0 ≤ a / b * 100 ∧ a / b * 100 ≤ 100 := by
  constructor
  · positivity
  · have h1 : a / b ≤ 1 := (div_le_one hb).mpr hab
    linarith

theorem countP_isSome_eq_length_filterMap {α : Type} (l : List (Option α)) :
    l.countP (fun v => v.isSome) = (l.filterMap id).length := by
  induction l with
  | nil => simp
  | cons h t ih => cases h <;> simp [List.countP_cons, ih]

theorem countP_disjoint_le {α : Type} (l : List α) (p q r : α → Bool)
    (hp : ∀ x ∈ l, p x = true → r x = true) (hq : ∀ x ∈ l, q x = true → r x = true)
    (hdisj : ∀ x ∈ l, ¬(p x = true ∧ q x = true)) :
    l.countP p + l.countP q ≤ l.countP r := by
  induction l with
  | nil => simp
  | cons a t ih =>
      have ihq := ih (fun x hx => hp x (List.mem_cons_of_mem a hx))
        (fun x hx => hq x (List.mem_cons_of_mem a hx))
        (fun x hx => hdisj x (List.mem_cons_of_mem a hx))
      have hpa := hp a (List.mem_cons_self a t)
      have hqa := hq a (List.mem_cons_self a t)
      have hda := hdisj a (List.mem_cons_self a t)
      rcases hbp : p a <;> rcases hbq : q a <;> rcases hbr : r a <;>
        simp_all [List.countP_cons] <;> omega

theorem list_sum_le_mul {l : List ℚ} {c : ℚ} (h : ∀ x ∈ l, x ≤ c) :
    l.sum ≤ (l.length : ℚ) * c := by
  induction l with
  | nil => simp
  | cons a t ih =>
      have ha := h a (List.mem_cons_self a t)
      have ht := ih (fun x hx => h x (List.mem_cons_of_mem a hx))
      simp only [List.sum_cons, List.length_cons]
      push_cast
      linarith

theorem list_sum_nonneg_q {l : List ℚ} (h : ∀ x ∈ l, 0 ≤ x) : 0 ≤ l.sum := by
  induction l with
  | nil => simp
  | cons a t ih =>
      have ha := h a (List.mem_cons_self a t)
      have ht := ih (fun x hx => h x (List.mem_cons_of_mem a hx))
      simp only [List.sum_cons]
      linarith

theorem list_sum_pos_q {l : List ℚ} (h : ∀ x ∈ l, 0 < x) (hne : l ≠ []) : 0 < l.sum := by
  cases l with
  | nil => exact absurd rfl hne
  | cons a t =>
      have ha := h a (List.mem_cons_self a t)
      have ht : 0 ≤ t.sum := list_sum_nonneg_q (fun x hx => (h x (List.mem_cons_of_mem a hx)).le)
      simp only [List.sum_cons]
      linarith

theorem lookup_map_pair {β γ : Type} (l : List (String × β)) (f : String × β → γ) (a : String) :
    (l.map (fun kv => (kv.1, f kv))).lookup a = (l.find? (fun kv => a == kv.1)).map f := by
  induction l with
  | nil => rfl
  | cons kv t ih =>
      by_cases h : a == kv.1
      · simp [List.lookup, List.find?, h]
      · simp only [List.map_cons, List.lookup, List.find?, h, Bool.false_eq_true, if_false]
        simpa using ih

theorem find?_key_eq {β : Type} (l : List (String × β)) (a : String) (b : β)
    (hnd : (l.map Prod.fst).Nodup) (hmem : (a, b) ∈ l) :
    l.find? (fun kv => a == kv.1) = some (a, b) := by
  induction l with
  | nil => cases hmem
  | cons kv t ih =>
      rcases List.mem_cons.mp hmem with heq | hmt
      · rw [← heq]
        exact List.find?_cons_of_pos _ (by simp)
      · by_cases h : a == kv.1
        · exfalso
          have ha : a = kv.1 := eq_of_beq h
          have : kv.1 ∈ t.map Prod.fst := by
            rw [← ha]
            exact List.mem_map.mpr ⟨(a, b), hmt, rfl⟩
          exact (List.nodup_cons.mp hnd).1 this
        · rw [List.find?_cons_of_neg _ (by simpa using h)]
          exact ih (List.nodup_cons.mp hnd).2 hmt

theorem lookup_build_eq {β γ : Type} (l : List (String × β)) (f : String × β → γ)
    (a : String) (b : β) (hnd : (l.map Prod.fst).Nodup) (hmem : (a, b) ∈ l) :
    (l.map (fun kv => (kv.1, f kv))).lookup a = some (f (a, b)) := by
  rw [lookup_map_pair, find?_key_eq l a b hnd hmem]
  rfl

theorem lookup_build_none {β γ : Type} (l : List (String × β)) (f : String × β → γ)
    (a : String) (habs : ∀ kv ∈ l, kv.1 ≠ a) :
    (l.map (fun kv => (kv.1, f kv))).lookup a = none := by
  rw [lookup_map_pair]
  rw [List.find?_eq_none.mpr]
  · rfl
  · intro kv hkv
    simp only [beq_iff_eq]
    exact fun h => habs kv hkv h.symm

theorem lookup_keyed_map {γ : Type} (l : List String) (g : String → γ) (a : String)
    (ha : a ∈ l) : (l.map (fun d => (d, g d))).lookup a = some (g a) := by
  induction l with
  | nil => cases ha
  | cons d t ih =>
      by_cases h : a = d
      · subst h
        simp [List.lookup]
      · rcases List.mem_cons.mp ha with heq | hmt
        · exact absurd heq h
        · simp only [List.map_cons, List.lookup, show (a == d) = false by simpa using h]
          exact ih hmt

theorem lookup_mem {β : Type} {l : List (String × β)} {a : String} {b : β}
    (h : l.lookup a = some b) : (a, b) ∈ l := by
  induction l with
  | nil => cases h
  | cons kv t ih =>
      rcases kv with ⟨k, v⟩
      by_cases hk : a == k
      · simp only [List.lookup, hk] at h
        have : a = k := eq_of_beq hk
        subst this
        cases h
        exact List.mem_cons_self _ _
      · simp only [List.lookup, hk] at h
        exact List.mem_cons_of_mem _ (ih h)

theorem dedupFirstAux_of_nodup (l : List String) :
    ∀ seen : List String, l.Nodup → (∀ x ∈ l, x ∉ seen) → dedupFirstAux seen l = l := by
  induction l with
  | nil => intro seen _ _; rfl
  | cons a t ih =>
      intro seen hnd hdisj
      have ha : seen.contains a = false := by
        simp [hdisj a (List.mem_cons_self a t)]
      simp only [dedupFirstAux, ha, Bool.false_eq_true, if_false]
      congr 1
      apply ih (a :: seen) (List.nodup_cons.mp hnd).2
      intro x hx
      simp only [List.mem_cons]
      push_neg
      refine ⟨?_, hdisj x (List.mem_cons_of_mem a hx)⟩
      intro hxa
      exact (List.nodup_cons.mp hnd).1 (hxa ▸ hx)

theorem dedupFirst_of_nodup {l : List String} (h : l.Nodup) : dedupFirst l = l :=
  dedupFirstAux_of_nodup l [] h (by simp)

theorem sum_map_div_mul (l : List String) (f : String → ℚ) (t : ℚ) :
    (l.map (fun d => f d / t * 100)).sum = (l.map f).sum / t * 100 := by
  induction l with
  | nil => simp
  | cons a r ih => simp only [List.map_cons, List.sum_cons, ih, add_div, add_mul]

theorem canonical_weight_pos {d : String} (h : d ∈ CANONICAL_DIMENSIONS) : 0 < weightOf d := by
  simp only [CANONICAL_DIMENSIONS, List.mem_cons, List.mem_singleton] at h
  rcases h with rfl | rfl | rfl | rfl | rfl | h
  · decide
  · decide
  · decide
  · decide
  · decide
  · cases h

theorem avg_clamp {l : List ℚ} (h : ∀ q ∈ l, 0 ≤ q ∧ q ≤ 100) :
    0 ≤ (if l.isEmpty then (0:ℚ) else l.sum / (l.length : ℚ)) ∧
    (if l.isEmpty then (0:ℚ) else l.sum / (l.length : ℚ)) ≤ 100 := by
  by_cases he : l.isEmpty
  · simp [he]
  · have hne : l ≠ [] := by simpa [List.isEmpty_iff] using he
    have hlen : 0 < (l.length : ℚ) := by
      have : 0 < l.length := List.length_pos.mpr hne
      exact_mod_cast this
    have hs0 : 0 ≤ l.sum := list_sum_nonneg_q (fun q hq => (h q hq).1)
    have hs1 : l.sum ≤ (l.length : ℚ) * 100 := list_sum_le_mul (fun q hq => (h q hq).2)
    have he' : l.isEmpty = false := by simpa using he
    rw [he']
    simp only [Bool.false_eq_true, if_false]
    constructor
    · exact div_nonneg hs0 hlen.le
    · rw [div_le_iff₀ hlen]
      linarith

theorem round1_avg_clamp {l : List ℚ} (h : ∀ q ∈ l, 0 ≤ q ∧ q ≤ 100) :
    0 ≤ round1 (if l.isEmpty then (0:ℚ) else l.sum / (l.length : ℚ)) ∧
    round1 (if l.isEmpty then (0:ℚ) else l.sum / (l.length : ℚ)) ≤ 100 :=
  round1_bounds (avg_clamp h).1 (avg_clamp h).2

theorem lookup_keyed_map_none {γ : Type} (l : List String) (g : String → γ) (a : String)
    (ha : a ∉ l) : (l.map (fun d => (d, g d))).lookup a = none := by
  induction l with
  | nil => rfl
  | cons d t ih =>
      have had : ¬ a = d := fun h => ha (h ▸ List.mem_cons_self d t)
      simp only [List.map_cons, List.lookup, show (a == d) = false by simpa using had]
      exact ih (fun h => ha (List.mem_cons_of_mem d h))

theorem mem_keys_unique {β : Type} {l : List (String × β)} (hnd : (l.map Prod.fst).Nodup)
    {a : String} {b c : β} (h1 : (a, b) ∈ l) (h2 : (a, c) ∈ l) : b = c := by
  induction l with
  | nil => cases h1
  | cons kv t ih =>
      rw [List.map_cons] at hnd
      have hh := List.nodup_cons.mp hnd
      rcases List.mem_cons.mp h1 with h1h | h1t
      · rcases List.mem_cons.mp h2 with h2h | h2t
        · have : (a, b) = (a, c) := h1h.trans h2h.symm
          exact (Prod.ext_iff.mp this).2
        · exfalso
          apply hh.1
          have : kv.1 = a := by rw [← h1h]
          rw [this]
          exact List.mem_map.mpr ⟨(a, c), h2t, rfl⟩
      · rcases List.mem_cons.mp h2 with h2h | h2t
        · exfalso
          apply hh.1
          have : kv.1 = a := by rw [← h2h]
          rw [this]
          exact List.mem_map.mpr ⟨(a, b), h1t, rfl⟩
        · exact ih hh.2 h1t h2t

theorem should_assess_uniqueness_irrel (n : String) (a b : ColumnInfo) :
    should_assess_uniqueness n a = should_assess_uniqueness n b := rfl

theorem countNonNull_nonneg (t : Table) (name : String) : 0 ≤ countNonNull t name :=
  Int.natCast_nonneg _

theorem countNonNull_le_rows (t : Table) (name : String) :
    countNonNull t name ≤ ((t.rows.length : ℕ) : ℤ) := by
  unfold countNonNull nonNullValues colValues
  have h2 : ((t.rows.map (fun r => rowGet r name)).filterMap id).length ≤ t.rows.length := by
    simpa using List.length_filterMap_le id (t.rows.map (fun r => rowGet r name))
  exact_mod_cast h2

theorem countNullRows_nonneg (t : Table) (name : String) : 0 ≤ countNullRows t name :=
  Int.natCast_nonneg _

theorem countNullRows_le_rows (t : Table) (name : String) :
    countNullRows t name ≤ ((t.rows.length : ℕ) : ℤ) := by
  unfold countNullRows colValues
  have h2 : (t.rows.map (fun r => rowGet r name)).countP (fun v => v.isNone) ≤ t.rows.length := by
    simpa using List.countP_le_length (p := fun v => v.isNone)
      (l := t.rows.map (fun r => rowGet r name))
  exact_mod_cast h2

theorem countDistinct_le_countNonNull (t : Table) (name : String) :
    countDistinctNonNull t name ≤ countNonNull t name := by
  unfold countDistinctNonNull countNonNull
  exact_mod_cast List.Sublist.length_le (List.dedup_sublist _)

theorem countDistinct_nonneg (t : Table) (name : String) : 0 ≤ countDistinctNonNull t name :=
  Int.natCast_nonneg _

theorem ratio_bounds_pos {u n : ℤ} (h0 : 0 ≤ u) (h1 : u ≤ n) :
    0 ≤ round1 (if 0 < n then (u : ℚ) / (n : ℚ) * 100 else 0) ∧
    round1 (if 0 < n then (u : ℚ) / (n : ℚ) * 100 else 0) ≤ 100 := by
  split_ifs with h
  · have hu : (0 : ℚ) ≤ (u : ℚ) := by exact_mod_cast h0
    have hun : (u : ℚ) ≤ (n : ℚ) := by exact_mod_cast h1
    have hn : (0 : ℚ) < (n : ℚ) := by exact_mod_cast h
    exact round1_bounds (frac_mul_100_bounds hu hun hn).1 (frac_mul_100_bounds hu hun hn).2
  · rw [round1_zero]
    norm_num

theorem ratio_bounds_ne {u n : ℤ} (h0 : 0 ≤ u) (h1 : u ≤ n) :
    0 ≤ round1 (if n = 0 then 0 else (u : ℚ) / (n : ℚ) * 100) ∧
    round1 (if n = 0 then 0 else (u : ℚ) / (n : ℚ) * 100) ≤ 100 := by
  split_ifs with h
  · rw [round1_zero]
    norm_num
  · have hn : 0 < n := lt_of_le_of_ne (le_trans h0 h1) (Ne.symm h)
    have hu : (0 : ℚ) ≤ (u : ℚ) := by exact_mod_cast h0
    have hun : (u : ℚ) ≤ (n : ℚ) := by exact_mod_cast h1
    have hn2 : (0 : ℚ) < (n : ℚ) := by exact_mod_cast hn
    exact round1_bounds (frac_mul_100_bounds hu hun hn2).1 (frac_mul_100_bounds hu hun hn2).2

theorem timeliness_of_dates_score_bounds (today : ℤ) (ds : List ℤ) :
    0 ≤ (timeliness_of_dates today ds).score ∧ (timeliness_of_dates today ds).score ≤ 100 := by
  unfold timeliness_of_dates
  rcases ds.max? with _ | latest
  · rcases ds.min? with _ | oldest <;> simp [timeliness_zero_result]
  · rcases ds.min? with _ | oldest
    · simp [timeliness_zero_result]
    · simp only [freshness_score]
      constructor <;> (split_ifs <;> norm_num)

theorem batch_timeliness_loop_mem (today : ℤ) (t : Table) (cs : List String) :
    ∀ p ∈ (batch_timeliness_loop today t cs).1,
      ∃ c, p = (c, timeliness_of_dates today (datesOf t c)) := by
  induction cs with
  | nil => intro p hp; simp [batch_timeliness_loop] at hp
  | cons c rest ih =>
      intro p hp
      rcases h : batch_timeliness_loop today t rest with ⟨stats, qs, exc⟩
      by_cases hc : allDates t c = true
      · simp only [batch_timeliness_loop, hc, if_true, h] at hp
        cases exc
        · simp only [Bool.false_eq_true, if_false, List.mem_cons] at hp
          rcases hp with rfl | hp2
          · exact ⟨c, rfl⟩
          · exact ih p (by rw [h]; exact hp2)
        · simp at hp
      · simp only [batch_timeliness_loop, hc, Bool.false_eq_true, if_false] at hp
        simp at hp

theorem checked_minus_count_score_bounds {cnt len : ℤ} (h0 : 0 ≤ cnt) (h1 : cnt ≤ len) :
    0 ≤ round1 (if 0 < len then ((len - cnt : ℤ) : ℚ) / (len : ℚ) * 100 else 0) ∧
    round1 (if 0 < len then ((len - cnt : ℤ) : ℚ) / (len : ℚ) * 100 else 0) ≤ 100 :=
  ratio_bounds_pos (by omega) (by omega)

theorem check_date_patterns_bounds (values : List String) :
    0 ≤ check_date_patterns values ∧
    check_date_patterns values ≤ ((values.length : ℕ) : ℤ) := by
  constructor
  · exact Int.natCast_nonneg _
  · unfold check_date_patterns
    exact_mod_cast List.countP_le_length _

theorem check_id_patterns_bounds (values : List String) :
    0 ≤ check_id_patterns values ∧
    check_id_patterns values ≤ ((values.length : ℕ) : ℤ) := by
  constructor
  · exact Int.natCast_nonneg _
  · unfold check_id_patterns
    exact_mod_cast List.countP_le_length _

theorem check_general_patterns_bounds (values : List String) (info : ColumnInfo) :
    0 ≤ check_general_patterns values info ∧
    check_general_patterns values info ≤ ((values.length : ℕ) : ℤ) := by
  constructor
  · exact Int.natCast_nonneg _
  · unfold check_general_patterns
    exact_mod_cast List.countP_le_length _

theorem blankCellCount_bounds (t : Table) (name : String) :
    0 ≤ blankCellCount t name ∧ blankCellCount t name ≤ countNonNull t name := by
  constructor
  · exact Int.natCast_nonneg _
  · unfold blankCellCount countNonNull nonNullValues
    have hmono : (colValues t name).countP
        (fun v => match v with | some w => (pyStrip w.toStr).length == 0 | none => false) ≤
        (colValues t name).countP (fun v => v.isSome) := by
      apply List.countP_mono_left
      intro v _ hv
      cases v
      · simp at hv
      · rfl
    rw [countP_isSome_eq_length_filterMap] at hmono
    exact_mod_cast hmono

theorem check_date_validity_bounds (today : ℤ) (t : Table) (name : String)
    (htoday : 0 ≤ today) :
    0 ≤ check_date_validity today t name ∧
    check_date_validity today t name ≤ countNonNull t name := by
  unfold check_date_validity
  split_ifs with h
  · constructor
    · have h1 := Int.natCast_nonneg ((colValues t name).countP (fun v =>
        match v with | some (.vdate d) => decide (today < d) | _ => false))
      have h2 := Int.natCast_nonneg ((colValues t name).countP (fun v =>
        match v with | some (.vdate d) => decide (d < 0) | _ => false))
      omega
    · have hle := countP_disjoint_le (colValues t name)
        (fun v => match v with | some (.vdate d) => decide (today < d) | _ => false)
        (fun v => match v with | some (.vdate d) => decide (d < 0) | _ => false)
        (fun v => v.isSome)
        (by
          intro v _ hv
          rcases v with _ | w
          · simp at hv
          · rfl)
        (by
          intro v _ hv
          rcases v with _ | w
          · simp at hv
          · rfl)
        (by
          intro v _ hv
          rcases hv with ⟨hp, hq⟩
          rcases v with _ | w
          · simp at hp
          · rcases w with s | d
            · simp at hp
            · have hp2 : today < d := of_decide_eq_true hp
              have hq2 : d < 0 := of_decide_eq_true hq
              omega)
      rw [countP_isSome_eq_length_filterMap] at hle
      unfold countNonNull nonNullValues
      exact_mod_cast hle
  · exact ⟨le_refl 0, countNonNull_nonneg t name⟩

theorem check_general_validity_bounds (t : Table) (name : String) (cit : Option String) :
    0 ≤ check_general_validity t name cit ∧
    check_general_validity t name cit ≤ countNonNull t name := by
  rcases cit with _ | ty
  · simp only [check_general_validity]
    exact ⟨le_refl 0, countNonNull_nonneg t name⟩
  · simp only [check_general_validity]
    split_ifs with h
    · exact blankCellCount_bounds t name
    · exact ⟨le_refl 0, countNonNull_nonneg t name⟩

theorem batch_timeliness_loop_clean (today : ℤ) (t : Table) (cs : List String)
    (h : ∀ c ∈ cs, allDates t c = true) :
    batch_timeliness_loop today t cs =
      (cs.map (fun c => (c, timeliness_of_dates today (datesOf t c))),
       cs.map (fun c => DBQuery.minMaxQ c), false) := by
  induction cs with
  | nil => rfl
  | cons c rest ih =>
      have hc := h c (List.mem_cons_self c rest)
      have ihr := ih (fun x hx => h x (List.mem_cons_of_mem c hx))
      simp [batch_timeliness_loop, hc, ihr]

theorem canonical_weight_isSome {d : String} (h : d ∈ CANONICAL_DIMENSIONS) :
    (DIMENSION_WEIGHTS.lookup d).isSome = true := by
  simp only [CANONICAL_DIMENSIONS, List.mem_cons, List.mem_singleton] at h
  rcases h with rfl | rfl | rfl | rfl | rfl | h
  · decide
  · decide
  · decide
  · decide
  · decide
  · cases h

/-! Claim theorems. -/

/-- C6: the grade function follows the descending threshold ladder 85, 70, 50
with first match winning, and is monotone for the order
Bad < Poor < Good < Excellent given by grade_rank. -/
theorem c6_theorem :
    (∀ s : ℚ,
      (get_health_grade s = "Excellent" ↔ 85 ≤ s) ∧
      (get_health_grade s = "Good" ↔ 70 ≤ s ∧ s < 85) ∧
      (get_health_grade s = "Poor" ↔ 50 ≤ s ∧ s < 70) ∧
      (get_health_grade s = "Bad" ↔ s < 50)) ∧
    (∀ s1 s2 : ℚ, s1 < s2 →
      grade_rank (get_health_grade s1) ≤ grade_rank (get_health_grade s2)) := by
  have hEG : ("Excellent" : String) ≠ "Good" := by decide
  have hEP : ("Excellent" : String) ≠ "Poor" := by decide
  have hEB : ("Excellent" : String) ≠ "Bad" := by decide
  have hGE : ("Good" : String) ≠ "Excellent" := by decide
  have hGP : ("Good" : String) ≠ "Poor" := by decide
  have hGB : ("Good" : String) ≠ "Bad" := by decide
  have hPE : ("Poor" : String) ≠ "Excellent" := by decide
  have hPG : ("Poor" : String) ≠ "Good" := by decide
  have hPB : ("Poor" : String) ≠ "Bad" := by decide
  have hBE : ("Bad" : String) ≠ "Excellent" := by decide
  have hBG : ("Bad" : String) ≠ "Good" := by decide
  have hBP : ("Bad" : String) ≠ "Poor" := by decide
  constructor
  · intro s
    unfold get_health_grade
    split_ifs with h1 h2 h3
    · exact ⟨⟨fun _ => h1, fun _ => rfl⟩,
        ⟨fun h => absurd h hEG, fun h => absurd h.2 (by linarith)⟩,
        ⟨fun h => absurd h hEP, fun h => absurd h.2 (by linarith)⟩,
        ⟨fun h => absurd h hEB, fun h => absurd h (by linarith)⟩⟩
    · exact ⟨⟨fun h => absurd h hGE, fun h => absurd h h1⟩,
        ⟨fun _ => ⟨h2, by linarith [not_le.mp h1]⟩, fun _ => rfl⟩,
        ⟨fun h => absurd h hGP, fun h => absurd h.2 (by linarith)⟩,
        ⟨fun h => absurd h hGB, fun h => absurd h (by linarith)⟩⟩
    · exact ⟨⟨fun h => absurd h hPE, fun h => absurd h h1⟩,
        ⟨fun h => absurd h hPG, fun h => absurd h.1 h2⟩,
        ⟨fun _ => ⟨h3, by linarith [not_le.mp h2]⟩, fun _ => rfl⟩,
        ⟨fun h => absurd h hPB, fun h => absurd h (by linarith)⟩⟩
    · exact ⟨⟨fun h => absurd h hBE, fun h => absurd h h1⟩,
        ⟨fun h => absurd h hBG, fun h => absurd h.1 h2⟩,
        ⟨fun h => absurd h hBP, fun h => absurd h.1 h3⟩,
        ⟨fun _ => by linarith [not_le.mp h3], fun _ => rfl⟩⟩
  · intro s1 s2 h
    unfold get_health_grade
    split_ifs <;> first | decide | linarith

/-- C6 witness: a concrete instance of the monotonicity part. -/
theorem c6_witness :
    (40 : ℚ) < 90 ∧
    grade_rank (get_health_grade 40) ≤ grade_rank (get_health_grade 90) :=
  ⟨by norm_num, c6_theorem.2 40 90 (by norm_num)⟩

set_option maxRecDepth 100000 in
/-- C1 counterexample: with the default selection forced everywhere, the
LLM-guided path checks all five dimensions for the column region, while the
deterministic path checks only completeness, consistency and validity for it
(region is neither ID-like nor date-typed), so the two per-column checked
sets differ. -/
theorem c1_counterexample :
    ((assess_all_columns_optimized 0 c1_example_table c1_example_columns "ei_tech" 1).1.lookup
        "region").map present_dimensions =
      some ["completeness", "consistency", "validity"] ∧
    llm_present_dimensions (assess_single_column_with_llm_guidance 0 c1_example_table "region"
        {} get_default_dimensions 1) =
      ["completeness", "uniqueness", "consistency", "validity", "timeliness"] ∧
    (["completeness", "consistency", "validity"] : List String) ≠
      ["completeness", "uniqueness", "consistency", "validity", "timeliness"] := by
  decide

/-- C1 amended: if the selector fails for every column, the LLM-guided path
checks all five dimensions for every column. The deterministic path checks
completeness, consistency and validity for every column, uniqueness exactly
for ID-like names, and timeliness exactly for date or time typed columns; so
its checked set is always a subset of the LLM set under forced fallback, with
equality exactly for columns that are both ID-like and date-typed. -/
theorem c1_theorem (today : ℤ) (t : Table) (cols : List (String × ColumnInfo))
    (schema_type : String) (total_records : ℤ) (name : String) (info : ColumnInfo)
    (colData : ColumnData)
    (hmem : (name, info) ∈ cols) (hnd : (cols.map Prod.fst).Nodup)
    (hclean : ∀ kv ∈ cols, is_date_column kv.2 = true → allDates t kv.1 = true) :
    llm_present_dimensions (assess_single_column_with_llm_guidance today t name colData
        get_default_dimensions total_records) = CANONICAL_DIMENSIONS ∧
    ∀ ch, (assess_all_columns_optimized today t cols schema_type total_records).1.lookup name =
        some ch →
      present_dimensions ch =
        ["completeness"] ++
          (if should_assess_uniqueness name info then ["uniqueness"] else []) ++
          ["consistency", "validity"] ++
          (if is_date_column info then ["timeliness"] else []) ∧
      present_dimensions ch ⊆ CANONICAL_DIMENSIONS ∧
      (present_dimensions ch = CANONICAL_DIMENSIONS ↔
        should_assess_uniqueness name info = true ∧ is_date_column info = true) := by
  constructor
  · simp [assess_single_column_with_llm_guidance, get_default_dimensions,
      llm_present_dimensions, llm_dim_score, CANONICAL_DIMENSIONS]
  · intro ch hch
    have hmap : (assess_all_columns_optimized today t cols schema_type total_records).1 =
        cols.map (fun kv => (kv.1, build_column_health today t cols schema_type total_records kv)) :=
      rfl
    rw [hmap, lookup_build_eq cols _ name info hnd hmem] at hch
    have hch2 : ch = build_column_health today t cols schema_type total_records (name, info) :=
      (Option.some.inj hch).symm
    subst hch2
    have e1 : (get_batch_completeness_stats t cols total_records).1 =
        cols.map (fun kv => (kv.1, completeness_stat t total_records kv)) := rfl
    have hcomp : ((build_column_health today t cols schema_type total_records
        (name, info)).completeness).isSome = true := by
      show (((get_batch_completeness_stats t cols total_records).1).lookup name).isSome = true
      rw [e1, lookup_build_eq cols _ name info hnd hmem]
      rfl
    have hcons : ((build_column_health today t cols schema_type total_records
        (name, info)).consistency).isSome = true := by
      show ((((get_sample_data_for_patterns t cols 500).1).lookup name).map
        (fun vs => assess_consistency_from_sample vs (name, info).2 (name, info).1)).isSome = true
      have e4 : (get_sample_data_for_patterns t cols 500).1 =
          cols.map (fun kv => (kv.1, sample_column_values t 500 kv)) := rfl
      rw [e4, lookup_build_eq cols _ name info hnd hmem]
      rfl
    have hval : ((build_column_health today t cols schema_type total_records
        (name, info)).validity).isSome = true := by
      show ((((get_sample_data_for_patterns t cols 500).1).lookup name).map
        (fun vs => assess_validity_from_sample vs (name, info).2 (name, info).1)).isSome = true
      have e4 : (get_sample_data_for_patterns t cols 500).1 =
          cols.map (fun kv => (kv.1, sample_column_values t 500 kv)) := rfl
      rw [e4, lookup_build_eq cols _ name info hnd hmem]
      rfl
    have hu : ((build_column_health today t cols schema_type total_records
        (name, info)).uniqueness).isSome = should_assess_uniqueness name info := by
      show (((get_batch_uniqueness_stats t
        (cols.filter (fun kv2 => should_assess_uniqueness kv2.1 kv2.2)) total_records).1).lookup
          name).isSome = should_assess_uniqueness name info
      have e2 : (get_batch_uniqueness_stats t
          (cols.filter (fun kv2 => should_assess_uniqueness kv2.1 kv2.2)) total_records).1 =
          (cols.filter (fun kv2 => should_assess_uniqueness kv2.1 kv2.2)).map
            (fun kv => (kv.1, uniqueness_stat t kv)) := rfl
      rw [e2]
      by_cases h1 : should_assess_uniqueness name info
      · have hmemf : (name, info) ∈
            cols.filter (fun kv2 => should_assess_uniqueness kv2.1 kv2.2) :=
          List.mem_filter.mpr ⟨hmem, h1⟩
        have hndf : (((cols.filter (fun kv2 => should_assess_uniqueness kv2.1 kv2.2)).map
            Prod.fst)).Nodup :=
          List.Nodup.sublist (List.Sublist.map Prod.fst (List.filter_sublist cols)) hnd
        rw [lookup_build_eq _ _ name info hndf hmemf, h1]
        rfl
      · have habs : ∀ kv ∈ cols.filter (fun kv2 => should_assess_uniqueness kv2.1 kv2.2),
            kv.1 ≠ name := by
          intro kv hkv hkv1
          rcases List.mem_filter.mp hkv with ⟨_, hp⟩
          apply h1
          rw [hkv1] at hp
          rw [should_assess_uniqueness_irrel name info kv.2]
          exact hp
        rw [lookup_build_none _ _ name habs]
        simp [h1]
    have ht : ((build_column_health today t cols schema_type total_records
        (name, info)).timeliness).isSome = is_date_column info := by
      show (((get_batch_timeliness_stats today t
        (cols.filter (fun kv2 => is_date_column kv2.2))).1).lookup name).isSome =
          is_date_column info
      have hdates : ∀ c ∈ (cols.filter (fun kv2 => is_date_column kv2.2)).map Prod.fst,
          allDates t c = true := by
        intro c hc
        rcases List.mem_map.mp hc with ⟨kv, hkv, rfl⟩
        rcases List.mem_filter.mp hkv with ⟨hmem2, hdate⟩
        exact hclean kv hmem2 hdate
      have e3 : (get_batch_timeliness_stats today t
          (cols.filter (fun kv2 => is_date_column kv2.2))).1 =
          ((cols.filter (fun kv2 => is_date_column kv2.2)).map Prod.fst).map
            (fun c => (c, timeliness_of_dates today (datesOf t c))) := by
        simp [get_batch_timeliness_stats, batch_timeliness_loop_clean today t _ hdates]
      rw [e3]
      by_cases h2 : is_date_column info
      · have hmemf : name ∈ (cols.filter (fun kv2 => is_date_column kv2.2)).map Prod.fst :=
          List.mem_map.mpr ⟨(name, info), List.mem_filter.mpr ⟨hmem, h2⟩, rfl⟩
        rw [lookup_keyed_map _ _ name hmemf, h2]
        rfl
      · have habs : name ∉ (cols.filter (fun kv2 => is_date_column kv2.2)).map Prod.fst := by
          intro hmm
          rcases List.mem_map.mp hmm with ⟨kv, hkvf, hfst⟩
          rcases List.mem_filter.mp hkvf with ⟨hkc, hdate⟩
          have hkc2 : (name, kv.2) ∈ cols := by
            rw [← hfst]
            simpa using hkc
          have hinfo := mem_keys_unique hnd hmem hkc2
          rw [← hinfo] at hdate
          exact h2 hdate
        rw [lookup_keyed_map_none _ _ name habs]
        simp [h2]
    have hform : present_dimensions (build_column_health today t cols schema_type total_records
        (name, info)) =
        ["completeness"] ++
          (if should_assess_uniqueness name info then ["uniqueness"] else []) ++
          ["consistency", "validity"] ++
          (if is_date_column info then ["timeliness"] else []) := by
      by_cases h1 : should_assess_uniqueness name info <;>
        by_cases h2 : is_date_column info <;>
          simp [present_dimensions, CANONICAL_DIMENSIONS, det_dim_score, Option.isSome_map,
            hcomp, hcons, hval, hu, ht, h1, h2, List.filter]
    refine ⟨hform, ?_, ?_⟩
    · rw [hform]
      by_cases h1 : should_assess_uniqueness name info <;>
        by_cases h2 : is_date_column info <;>
          simp [h1, h2, CANONICAL_DIMENSIONS]
    · rw [hform]
      by_cases h1 : should_assess_uniqueness name info <;>
        by_cases h2 : is_date_column info <;>
          simp [h1, h2, CANONICAL_DIMENSIONS]

/-- C1 witness: the amended statement instantiated on the region column. -/
theorem c1_witness :
    (("region", ({ type := "VARCHAR" } : ColumnInfo)) ∈ c1_example_columns ∧
      (c1_example_columns.map Prod.fst).Nodup) ∧
    llm_present_dimensions (assess_single_column_with_llm_guidance 0 c1_example_table "region"
      {} get_default_dimensions 1) = CANONICAL_DIMENSIONS :=
  ⟨⟨by decide, by decide⟩,
    (c1_theorem 0 c1_example_table c1_example_columns "ei_tech" 1 "region"
      { type := "VARCHAR" } {} (by decide) (by decide) (by decide)).1⟩

/-- C2: for every recognized schema type over a zero-record table, both entry
points return the empty report template, whose total_records is 0, overall
score 0.0, grade N/A, and column_analysis empty. -/
theorem c2_theorem (today : ℤ) (db : String → Table)
    (columnsOf : String → List (String × ColumnInfo))
    (semanticsOf : String → List (String × ColumnData))
    (dimension_selections : List (String × DimSelection)) (schema_type : String)
    (hrec : schema_type ∈ MODEL_MAPPING_KEYS)
    (hzero : (db schema_type).rows.length = 0) :
    assess_data_health today db columnsOf schema_type =
      Except.ok (empty_health_report schema_type) ∧
    assess_data_health_llm today db semanticsOf dimension_selections schema_type =
      Except.ok (empty_health_report schema_type) ∧
    (empty_health_report schema_type : HealthReportG ColumnHealth).total_records = 0 ∧
    (empty_health_report schema_type : HealthReportG ColumnHealth).overall_health.score = 0 ∧
    (empty_health_report schema_type : HealthReportG ColumnHealth).overall_health.grade = "N/A" ∧
    (empty_health_report schema_type : HealthReportG ColumnHealth).column_analysis = [] ∧
    (empty_health_report schema_type : HealthReportG ColumnResultLLM).total_records = 0 ∧
    (empty_health_report schema_type : HealthReportG ColumnResultLLM).overall_health.score = 0 ∧
    (empty_health_report schema_type : HealthReportG ColumnResultLLM).overall_health.grade = "N/A" ∧
    (empty_health_report schema_type : HealthReportG ColumnResultLLM).column_analysis = [] := by
  refine ⟨?_, ?_, rfl, rfl, rfl, rfl, rfl, rfl, rfl, rfl⟩
  · simp [assess_data_health, hzero, hrec]
  · simp [assess_data_health_llm, hzero, hrec]

/-- C2 witness: the ei_tech schema over an empty database. -/
theorem c2_witness :
    "ei_tech" ∈ MODEL_MAPPING_KEYS ∧
    assess_data_health 0 (fun _ => { rows := [] }) (fun _ => []) "ei_tech" =
      Except.ok (empty_health_report "ei_tech") :=
  ⟨by decide,
    (c2_theorem 0 (fun _ => { rows := [] }) (fun _ => []) (fun _ => []) [] "ei_tech"
      (by decide) rfl).1⟩

/-- C3: over any non-empty duplicate-free subset S of the five canonical
dimensions, the renormalized weights of the LLM-guided column score sum to
exactly 100, and each renormalized weight is the canonical weight divided by
the total weight of S, times 100. -/
theorem c3_theorem (S : List String) (hne : S ≠ []) (hnd : S.Nodup)
    (hsub : ∀ d ∈ S, d ∈ CANONICAL_DIMENSIONS) :
    ((normalized_weights S).map (fun p => p.2)).sum = 100 ∧
    ∀ d ∈ S, (normalized_weights S).lookup d =
      some (weightOf d / (S.map weightOf).sum * 100) := by
  have hfilter : S.filter (fun d => (DIMENSION_WEIGHTS.lookup d).isSome) = S :=
    List.filter_eq_self.mpr (fun d hd => canonical_weight_isSome (hsub d hd))
  have hactive : active_weights S = S.map (fun d => (d, weightOf d)) := by
    unfold active_weights
    rw [hfilter, dedupFirst_of_nodup hnd]
  have htotal : ((active_weights S).map (fun p => p.2)).sum = (S.map weightOf).sum := by
    rw [hactive, List.map_map]
    rfl
  have hpos : 0 < (S.map weightOf).sum := by
    apply list_sum_pos_q
    · intro x hx
      rcases List.mem_map.mp hx with ⟨d, hd, rfl⟩
      exact canonical_weight_pos (hsub d hd)
    · simpa using hne
  have hnw : normalized_weights S =
      S.map (fun d => (d, weightOf d / (S.map weightOf).sum * 100)) := by
    simp only [normalized_weights]
    rw [htotal, hactive, List.map_map]
    rfl
  constructor
  · rw [hnw, List.map_map]
    have : ((fun p => p.2) ∘ fun d => (d, weightOf d / (S.map weightOf).sum * 100)) =
        fun d => weightOf d / (S.map weightOf).sum * 100 := rfl
    rw [this, sum_map_div_mul, div_self (ne_of_gt hpos), one_mul]
  · intro d hd
    rw [hnw]
    exact lookup_keyed_map S (fun d => weightOf d / (S.map weightOf).sum * 100) d hd

/-- C3 witness: the subset containing completeness and validity. -/
theorem c3_witness :
    c3_example_subset ≠ [] ∧
    ((normalized_weights c3_example_subset).map (fun p => p.2)).sum = 100 :=
  ⟨by decide,
    (c3_theorem c3_example_subset (by decide) (by decide) (by decide)).1⟩

/-- C5: the deterministic column score is the weighted average of the scores
of the dimensions present on the column, with the fixed weight table
restricted to those dimensions in both numerator and denominator, rounded to
one decimal as the source does; with no dimension present it is 0.0. -/
theorem c5_theorem (ch : ColumnHealth) :
    calculate_column_score ch =
      if present_dimensions ch = [] then 0
      else round1
        (((present_dimensions ch).map (fun d => ((det_dim_score ch d).getD 0) * weightOf d)).sum /
         ((present_dimensions ch).map weightOf).sum) := by
  rcases ch with ⟨dt, ic, os, iss, recs, c, u, co, v, t⟩
  cases c <;> cases u <;> cases co <;> cases v <;> cases t <;>
    simp [calculate_column_score, score_weight_pairs, det_dim_score, present_dimensions,
      CANONICAL_DIMENSIONS, DIMENSION_WEIGHTS, weightOf, List.lookup] <;>
    norm_num

/-- C10: the deterministic overall dimensions map always carries all five
canonical dimensions with their fixed weights summing to 100; a dimension
with no column score enters with score 0.0 while its weight stays in the
denominator, so with timeliness absent the overall weighted score is at most
75 (given the per-column dimension scores lie in [0, 100]). -/
theorem c10_theorem (os : List (String × List ℚ))
    (hr : ∀ p ∈ os, ∀ q ∈ p.2, 0 ≤ q ∧ q ≤ 100) :
    ((calculate_overall_dimensions os).map Prod.fst = CANONICAL_DIMENSIONS) ∧
    (∀ p ∈ calculate_overall_dimensions os, p.2.weight = weightOf p.1) ∧
    (((calculate_overall_dimensions os).map (fun p => p.2.weight)).sum = 100) ∧
    ((os.lookup "timeliness").getD [] = [] →
      (calculate_overall_dimensions os).lookup "timeliness" =
        some { score := 0, weight := 25 } ∧
      calculate_weighted_score (calculate_overall_dimensions os) ≤ 75) := by
  have hbound : ∀ d : String, 0 ≤ round1 (if ((os.lookup d).getD []).isEmpty then (0:ℚ)
        else ((os.lookup d).getD []).sum / ((((os.lookup d).getD []).length : ℕ) : ℚ)) ∧
      round1 (if ((os.lookup d).getD []).isEmpty then (0:ℚ)
        else ((os.lookup d).getD []).sum / ((((os.lookup d).getD []).length : ℕ) : ℚ)) ≤ 100 := by
    intro d
    apply round1_avg_clamp
    intro q hq
    rcases hl : os.lookup d with _ | l
    · rw [hl] at hq
      simp at hq
    · rw [hl] at hq
      exact hr (d, l) (lookup_mem hl) q (by simpa using hq)
  refine ⟨?_, ?_, ?_, ?_⟩
  · simp [calculate_overall_dimensions, DIMENSION_WEIGHTS, CANONICAL_DIMENSIONS]
  · intro p hp
    simp only [calculate_overall_dimensions, DIMENSION_WEIGHTS, List.map_cons, List.map_nil,
      List.mem_cons, List.not_mem_nil, or_false] at hp
    rcases hp with rfl | rfl | rfl | rfl | rfl <;> simp [weightOf, DIMENSION_WEIGHTS, List.lookup]
  · simp only [calculate_overall_dimensions, DIMENSION_WEIGHTS, List.map_cons, List.map_nil,
      List.sum_cons, List.sum_nil]
    norm_num
  · intro ht
    constructor
    · simp only [calculate_overall_dimensions, DIMENSION_WEIGHTS, List.map_cons, List.map_nil]
      simp only [List.lookup, show (("timeliness" : String) == "completeness") = false by decide,
        show (("timeliness" : String) == "uniqueness") = false by decide,
        show (("timeliness" : String) == "consistency") = false by decide,
        show (("timeliness" : String) == "validity") = false by decide,
        show (("timeliness" : String) == "timeliness") = true by decide]
      rw [ht]
      simp [round1_zero]
    · have h1 := hbound "completeness"
      have h2 := hbound "uniqueness"
      have h3 := hbound "consistency"
      have h4 := hbound "validity"
      simp only [calculate_overall_dimensions, DIMENSION_WEIGHTS, List.map_cons, List.map_nil,
        calculate_weighted_score, List.sum_cons, List.sum_nil]
      rw [ht]
      simp only [List.isEmpty_nil, if_true, round1_zero]
      simp only [List.isEmpty_iff] at h1 h2 h3 h4
      norm_num
      linarith [h1.1, h1.2, h2.1, h2.2, h3.1, h3.2, h4.1, h4.2]

set_option maxRecDepth 100000 in
/-- C4 counterexample: a response that parses and carries dimensions_to_check,
dimensions_to_skip and reasoning but no priority key is returned as parsed,
not replaced by the default selection, refuting the claim that a missing
priority field forces the default. -/
theorem c4_counterexample :
    parse_llm_response c4_example_response ≠ default_dimensions_json ∧
    json_has_field (parse_llm_response c4_example_response) "dimensions_to_check" = true ∧
    json_has_field (parse_llm_response c4_example_response) "priority" = false := by
  have h1 : json_has_field (parse_llm_response c4_example_response) "priority" = false := by
    decide
  have h2 : json_has_field default_dimensions_json "priority" = true := by decide
  have h3 : json_has_field (parse_llm_response c4_example_response) "dimensions_to_check" = true := by
    decide
  refine ⟨?_, h3, h1⟩
  intro he
  rw [he, h2] at h1
  cases h1

/-- C4 amended: the parser output is either the fixed default selection or
the parsed JSON object of the response, and the latter only when the object
carries all of dimensions_to_check, dimensions_to_skip and reasoning; the
priority field is not validated. The parser is a total function, so
select_dimensions never propagates a parse failure. -/
theorem c4_theorem (s : String) :
    parse_llm_response s = default_dimensions_json ∨
    (json_loads (llm_json_slice s) = some (parse_llm_response s) ∧
     required_fields.all (fun f => json_has_field (parse_llm_response s) f) = true) := by
  by_cases h : strFindChar s lbrace ≠ -1 ∧ strRFindChar s rbrace + 1 ≠ -1
  · simp only [parse_llm_response, if_pos h]
    rcases hj : json_loads (llm_json_slice s) with _ | j <;> simp only [hj]
    · exact Or.inl trivial
    · by_cases hf : required_fields.all (fun f => json_has_field j f) = true
      · exact Or.inr ⟨by simp [hf], by simp [hf]⟩
      · exact Or.inl (by simp [hf])
  · simp only [parse_llm_response, if_neg h]
    exact Or.inl trivial

set_option maxRecDepth 100000 in
/-- C8 counterexample: on a 600-record table, the LLM-guided consistency
scorer checks 600 values, so the claim that every assessment path fetches at
most 500 records and retains at most 100 values per column is false: the
per-column path fetches up to 1000 non-null values and retains all of them. -/
theorem c8_counterexample :
    (assess_consistency c8_example_table { type := "VARCHAR" } "c").total_checked = 600 ∧
    ¬((assess_consistency c8_example_table { type := "VARCHAR" } "c").total_checked ≤ 100) ∧
    ¬((assess_consistency c8_example_table { type := "VARCHAR" } "c").total_checked ≤ 500) := by
  have h : (assess_consistency c8_example_table { type := "VARCHAR" } "c").total_checked = 600 := by
    decide
  refine ⟨h, ?_, ?_⟩ <;> rw [h] <;> decide

/-- C8 amended: the batch-path sample is bounded by the first 500 records and
100 retained values per column, while the LLM-guided consistency scorer is
bounded by 1000 fetched non-null values, all retained; in both paths the
score is 100 times checked minus violations over checked (rounded to one
decimal), and an empty sample yields score 0 with total_checked 0. -/
theorem c8_theorem (t : Table) (cols : List (String × ColumnInfo)) (info : ColumnInfo)
    (name : String) (vals : List String) :
    (∀ p ∈ (get_sample_data_for_patterns t cols 500).1, p.2.length ≤ 100) ∧
    ((get_sample_data_for_patterns t cols 500).1 =
      (get_sample_data_for_patterns { rows := t.rows.take 500 } cols 500).1) ∧
    ((assess_consistency t info name).total_checked ≤ 1000) ∧
    (vals = [] → assess_consistency_from_sample vals info name =
      { score := 0, pattern_violations := 0, total_checked := 0, violation_percentage := some 0 }) ∧
    (vals ≠ [] →
      (assess_consistency_from_sample vals info name).total_checked = (vals.length : ℕ) ∧
      0 ≤ (assess_consistency_from_sample vals info name).pattern_violations ∧
      (assess_consistency_from_sample vals info name).pattern_violations ≤ ((vals.length : ℕ) : ℤ) ∧
      (assess_consistency_from_sample vals info name).score =
        round1 (((((vals.length : ℕ) : ℤ) -
            (assess_consistency_from_sample vals info name).pattern_violations : ℤ) : ℚ) /
          (((vals.length : ℕ) : ℤ) : ℚ) * 100)) ∧
    (nonNullValues t name = [] → assess_consistency t info name =
      { score := 0, pattern_violations := 0, total_checked := 0 }) := by
  refine ⟨?_, ?_, ?_, ?_, ?_, ?_⟩
  · intro p hp
    simp only [get_sample_data_for_patterns] at hp
    rcases List.mem_map.mp hp with ⟨kv, hkv, rfl⟩
    exact List.length_take_le 100 _
  · have hs : ∀ kv : String × ColumnInfo, sample_column_values t 500 kv =
        sample_column_values { rows := t.rows.take 500 } 500 kv := by
      intro kv
      simp [sample_column_values, List.take_take]
    simp only [get_sample_data_for_patterns, hs]
  · simp only [assess_consistency]
    by_cases he : (((nonNullValues t name).take 1000).map Value.toStr).isEmpty
    · rw [if_pos he]
      norm_num
    · rw [if_neg he]
      simp only []
      have hl : (((nonNullValues t name).take 1000).map Value.toStr).length ≤ 1000 := by
        rw [List.length_map]
        exact List.length_take_le 1000 _
      exact_mod_cast hl
  · intro hv
    subst hv
    rfl
  · intro hv
    have he : vals.isEmpty = false := by simpa [List.isEmpty_iff] using hv
    have hlen : 0 < ((vals.length : ℕ) : ℤ) := by
      have : 0 < vals.length := List.length_pos.mpr hv
      exact_mod_cast this
    simp only [assess_consistency_from_sample, he, Bool.false_eq_true, if_false]
    refine ⟨trivial, ?_, ?_, ?_⟩
    · split_ifs <;>
        simp [check_date_patterns, check_id_patterns, check_general_patterns]
    · split_ifs with h1 h2
      · unfold check_date_patterns
        exact_mod_cast List.countP_le_length _
      · unfold check_id_patterns
        exact_mod_cast List.countP_le_length _
      · unfold check_general_patterns
        exact_mod_cast List.countP_le_length _
    · rw [if_pos hlen]
  · intro hnn
    simp [assess_consistency, hnn]

/-- C8 witness: the empty-sample case returns total_checked 0, with score 0,
and the bound theorem instantiated on the 600-record table. -/
theorem c8_witness :
    ([] : List String) = [] ∧
    assess_consistency_from_sample [] { type := "VARCHAR" } "c" =
      { score := 0, pattern_violations := 0, total_checked := 0, violation_percentage := some 0 } :=
  ⟨rfl, (c8_theorem c8_example_table [] { type := "VARCHAR" } "c" []).2.2.2.1 rfl⟩

/-- C7: every dimension result produced by the five scorers, in the batch
path, the per-column LLM-guided path, and every error-fallback placeholder,
has a score inside [0, 100]. The hypotheses say that the total_records the
caller passes is the row count of the table and that today is not before the
1900-01-01 lower bound used by the date validity rule. -/
theorem c7_theorem (t : Table) (cols : List (String × ColumnInfo)) (info : ColumnInfo)
    (name : String) (vals : List String) (cit : Option String) (today : ℤ)
    (total_records : ℤ) (e : String)
    (htot : total_records = ((t.rows.length : ℕ) : ℤ)) (htoday : 0 ≤ today) :
    (∀ p ∈ (get_batch_completeness_stats t cols total_records).1,
      0 ≤ p.2.score ∧ p.2.score ≤ 100) ∧
    (∀ p ∈ (get_batch_uniqueness_stats t cols total_records).1,
      0 ≤ p.2.score ∧ p.2.score ≤ 100) ∧
    (∀ p ∈ (get_batch_timeliness_stats today t cols).1,
      0 ≤ p.2.score ∧ p.2.score ≤ 100) ∧
    (0 ≤ (assess_consistency_from_sample vals info name).score ∧
      (assess_consistency_from_sample vals info name).score ≤ 100) ∧
    (0 ≤ (assess_validity_from_sample vals info name).score ∧
      (assess_validity_from_sample vals info name).score ≤ 100) ∧
    (0 ≤ (assess_completeness t name total_records).score ∧
      (assess_completeness t name total_records).score ≤ 100) ∧
    (0 ≤ (assess_uniqueness t name total_records).score ∧
      (assess_uniqueness t name total_records).score ≤ 100) ∧
    (0 ≤ (assess_consistency t info name).score ∧
      (assess_consistency t info name).score ≤ 100) ∧
    (0 ≤ (assess_validity today t cit name total_records).score ∧
      (assess_validity today t cit name total_records).score ≤ 100) ∧
    (0 ≤ (assess_timeliness today t name).score ∧
      (assess_timeliness today t name).score ≤ 100) ∧
    (0 ≤ (completeness_error_result total_records).score ∧
      (completeness_error_result total_records).score ≤ 100) ∧
    (0 ≤ (uniqueness_error_result total_records).score ∧
      (uniqueness_error_result total_records).score ≤ 100) ∧
    (0 ≤ consistency_error_result.score ∧ consistency_error_result.score ≤ 100) ∧
    (0 ≤ validity_error_result.score ∧ validity_error_result.score ≤ 100) ∧
    (0 ≤ timeliness_zero_result.score ∧ timeliness_zero_result.score ≤ 100) ∧
    (0 ≤ (dimension_timeout_placeholder e).score ∧
      (dimension_timeout_placeholder e).score ≤ 100) := by
  refine ⟨?_, ?_, ?_, ?_, ?_, ?_, ?_, ?_, ?_, ?_, ?_, ?_, ?_, ?_, ?_, ?_⟩
  · intro p hp
    simp only [get_batch_completeness_stats] at hp
    rcases List.mem_map.mp hp with ⟨kv, hkv, rfl⟩
    exact ratio_bounds_pos (countNonNull_nonneg t kv.1)
      (htot ▸ countNonNull_le_rows t kv.1)
  · intro p hp
    simp only [get_batch_uniqueness_stats] at hp
    rcases List.mem_map.mp hp with ⟨kv, hkv, rfl⟩
    exact ratio_bounds_ne (countDistinct_nonneg t kv.1)
      (countDistinct_le_countNonNull t kv.1)
  · intro p hp
    rcases h : batch_timeliness_loop today t (cols.map Prod.fst) with ⟨stats, qs, exc⟩
    have hp2 : p ∈ (batch_timeliness_loop today t (cols.map Prod.fst)).1 := by
      rw [h]
      simpa [get_batch_timeliness_stats, h] using hp
    rcases batch_timeliness_loop_mem today t (cols.map Prod.fst) p hp2 with ⟨c, rfl⟩
    exact timeliness_of_dates_score_bounds today (datesOf t c)
  · by_cases he : vals.isEmpty = true
    · simp [assess_consistency_from_sample, he]
    · have he' : vals.isEmpty = false := by simpa using he
      simp only [assess_consistency_from_sample, he', Bool.false_eq_true, if_false]
      have hv : 0 ≤ (if strIn "date" (pyLower name) then check_date_patterns vals
            else if strIn "id" (pyLower name) then check_id_patterns vals
            else check_general_patterns vals info) ∧
          (if strIn "date" (pyLower name) then check_date_patterns vals
            else if strIn "id" (pyLower name) then check_id_patterns vals
            else check_general_patterns vals info) ≤ ((vals.length : ℕ) : ℤ) := by
        split_ifs
        · exact check_date_patterns_bounds vals
        · exact check_id_patterns_bounds vals
        · exact check_general_patterns_bounds vals info
      exact checked_minus_count_score_bounds hv.1 hv.2
  · by_cases he : vals.isEmpty = true
    · simp [assess_validity_from_sample, he]
    · have he' : vals.isEmpty = false := by simpa using he
      simp only [assess_validity_from_sample, he', Bool.false_eq_true, if_false]
      have hv : 0 ≤ (if strIn "date" (pyLower name) then
              ((vals.countP (fun v => (pyStrip v).length == 0) : ℕ) : ℤ)
            else if strIn "id" (pyLower name) then
              ((vals.countP (fun v => !matchesIdPattern v || (pyStrip v).length == 0) : ℕ) : ℤ)
            else
              ((vals.countP (fun v => ((pyStrip v).length == 0) || decide (1000 < v.length)) : ℕ) : ℤ)) ∧
          (if strIn "date" (pyLower name) then
              ((vals.countP (fun v => (pyStrip v).length == 0) : ℕ) : ℤ)
            else if strIn "id" (pyLower name) then
              ((vals.countP (fun v => !matchesIdPattern v || (pyStrip v).length == 0) : ℕ) : ℤ)
            else
              ((vals.countP (fun v => ((pyStrip v).length == 0) || decide (1000 < v.length)) : ℕ) : ℤ)) ≤
            ((vals.length : ℕ) : ℤ) := by
        split_ifs
        · exact ⟨Int.natCast_nonneg _, by exact_mod_cast List.countP_le_length _⟩
        · exact ⟨Int.natCast_nonneg _, by exact_mod_cast List.countP_le_length _⟩
        · exact ⟨Int.natCast_nonneg _, by exact_mod_cast List.countP_le_length _⟩
      exact checked_minus_count_score_bounds hv.1 hv.2
  · have hnull := countNullRows_nonneg t name
    have hnull2 := countNullRows_le_rows t name
    exact ratio_bounds_pos (by omega) (by omega)
  · exact ratio_bounds_ne (countDistinct_nonneg t name) (countDistinct_le_countNonNull t name)
  · by_cases hnn : nonNullValues t name = []
    · simp [assess_consistency, hnn]
    · have he' : (((nonNullValues t name).take 1000).map Value.toStr).isEmpty = false := by
        simp [List.isEmpty_iff, hnn]
      simp only [assess_consistency, he', Bool.false_eq_true, if_false]
      have hv : 0 ≤ (if strIn "date" (pyLower name) then
              check_date_patterns (((nonNullValues t name).take 1000).map Value.toStr)
            else if strIn "id" (pyLower name) then
              check_id_patterns (((nonNullValues t name).take 1000).map Value.toStr)
            else check_general_patterns (((nonNullValues t name).take 1000).map Value.toStr) info) ∧
          (if strIn "date" (pyLower name) then
              check_date_patterns (((nonNullValues t name).take 1000).map Value.toStr)
            else if strIn "id" (pyLower name) then
              check_id_patterns (((nonNullValues t name).take 1000).map Value.toStr)
            else check_general_patterns (((nonNullValues t name).take 1000).map Value.toStr) info) ≤
          ((((nonNullValues t name).take 1000).map Value.toStr).length : ℕ) := by
        split_ifs
        · exact check_date_patterns_bounds _
        · exact check_id_patterns_bounds _
        · exact check_general_patterns_bounds _ info
      exact checked_minus_count_score_bounds hv.1 hv.2
  · by_cases hz : countNonNull t name = 0
    · simp [assess_validity, hz]
    · simp only [assess_validity, hz, if_false]
      have hv : 0 ≤ (if strIn "date" (pyLower name) then check_date_validity today t name
            else if strIn "id" (pyLower name) then check_id_validity t name
            else if name ∈ (["status", "region", "branch"] : List String) then
              check_categorical_validity t name
            else check_general_validity t name cit) ∧
          (if strIn "date" (pyLower name) then check_date_validity today t name
            else if strIn "id" (pyLower name) then check_id_validity t name
            else if name ∈ (["status", "region", "branch"] : List String) then
              check_categorical_validity t name
            else check_general_validity t name cit) ≤ countNonNull t name := by
        split_ifs
        · exact check_date_validity_bounds today t name htoday
        · exact blankCellCount_bounds t name
        · exact blankCellCount_bounds t name
        · exact check_general_validity_bounds t name cit
      exact checked_minus_count_score_bounds hv.1 hv.2
  · unfold assess_timeliness
    split_ifs
    · exact timeliness_of_dates_score_bounds today (datesOf t name)
    · simp [timeliness_zero_result]
  · simp [completeness_error_result]
  · simp [uniqueness_error_result]
  · simp [consistency_error_result]
  · simp [validity_error_result]
  · simp [timeliness_zero_result]
  · simp [dimension_timeout_placeholder]

/-- C7 witness: the bounds instantiated on a concrete one-row table. -/
theorem c7_witness :
    ((1 : ℤ) = (((c9_example_table.rows.length : ℕ)) : ℤ) ∧ (0 : ℤ) ≤ 0) ∧
    (0 ≤ (assess_completeness c9_example_table "event_id" 1).score ∧
      (assess_completeness c9_example_table "event_id" 1).score ≤ 100) :=
  ⟨⟨by decide, le_refl 0⟩,
    (c7_theorem c9_example_table [] { type := "VARCHAR" } "event_id" [] none 0 1 "e"
      (by decide) (le_refl 0)).2.2.2.2.2.1⟩

/-- C9 counterexample: for a single ID-like column the batch uniqueness
helper issues two queries, a distinct count and a non-null count, refuting
the claim of exactly one uniqueness query per ID-like column; the full batch
trace for that one column has four round trips, not three. -/
theorem c9_counterexample :
    (c9_example_columns.filter (fun kv => should_assess_uniqueness kv.1 kv.2)).length = 1 ∧
    (get_batch_uniqueness_stats c9_example_table
      (c9_example_columns.filter (fun kv => should_assess_uniqueness kv.1 kv.2)) 1).2 =
      [DBQuery.countDistinctQ "event_id", DBQuery.countNonNullQ "event_id"] ∧
    ((get_batch_uniqueness_stats c9_example_table
      (c9_example_columns.filter (fun kv => should_assess_uniqueness kv.1 kv.2)) 1).2).length ≠ 1 ∧
    (assess_all_columns_optimized 0 c9_example_table c9_example_columns "ei_tech" 1).2 =
      [DBQuery.countNonNullQ "event_id", DBQuery.countDistinctQ "event_id",
       DBQuery.countNonNullQ "event_id", DBQuery.sampleFetchQ 500] := by
  decide

/-- C9 amended: on a run without a timeliness exception the batch planner
issues exactly one completeness count per column, two uniqueness queries per
ID-like column (a distinct count and a non-null count), one min and max query
per date-typed column, and one shared bounded sample fetch, in that order and
nothing else. -/
theorem c9_theorem (today : ℤ) (t : Table) (cols : List (String × ColumnInfo))
    (schema_type : String) (total_records : ℤ)
    (hclean : ∀ kv ∈ cols, is_date_column kv.2 = true → allDates t kv.1 = true) :
    (assess_all_columns_optimized today t cols schema_type total_records).2 =
      (cols.map (fun kv => DBQuery.countNonNullQ kv.1)) ++
      ((cols.filter (fun kv => should_assess_uniqueness kv.1 kv.2)).flatMap
        (fun kv => [DBQuery.countDistinctQ kv.1, DBQuery.countNonNullQ kv.1])) ++
      ((cols.filter (fun kv => is_date_column kv.2)).map (fun kv => DBQuery.minMaxQ kv.1)) ++
      [DBQuery.sampleFetchQ 500] := by
  have hdates : ∀ c ∈ (cols.filter (fun kv => is_date_column kv.2)).map Prod.fst,
      allDates t c = true := by
    intro c hc
    rcases List.mem_map.mp hc with ⟨kv, hkv, rfl⟩
    rcases List.mem_filter.mp hkv with ⟨hmem, hdate⟩
    exact hclean kv hmem hdate
  simp only [assess_all_columns_optimized, get_batch_completeness_stats,
    get_batch_uniqueness_stats, get_sample_data_for_patterns, get_batch_timeliness_stats,
    batch_timeliness_loop_clean today t _ hdates]
  simp [List.map_map, Function.comp]

/-- C9 witness: the amended trace shape on the one ID-column table. -/
theorem c9_witness :
    (∀ kv ∈ c9_example_columns, is_date_column kv.2 = true →
      allDates c9_example_table kv.1 = true) ∧
    (assess_all_columns_optimized 0 c9_example_table c9_example_columns "ei_tech" 1).2 =
      (c9_example_columns.map (fun kv => DBQuery.countNonNullQ kv.1)) ++
      ((c9_example_columns.filter (fun kv => should_assess_uniqueness kv.1 kv.2)).flatMap
        (fun kv => [DBQuery.countDistinctQ kv.1, DBQuery.countNonNullQ kv.1])) ++
      ((c9_example_columns.filter (fun kv => is_date_column kv.2)).map
        (fun kv => DBQuery.minMaxQ kv.1)) ++
      [DBQuery.sampleFetchQ 500] :=
  ⟨by decide, c9_theorem 0 c9_example_table c9_example_columns "ei_tech" 1 (by decide)⟩

/-- C10 witness: one completeness score, no timeliness scores. -/
theorem c10_witness :
    (∀ p ∈ ([("completeness", [(80:ℚ)])] : List (String × List ℚ)),
      ∀ q ∈ p.2, 0 ≤ q ∧ q ≤ 100) ∧
    calculate_weighted_score (calculate_overall_dimensions [("completeness", [(80:ℚ)])]) ≤ 75 :=
  ⟨by decide,
    ((c10_theorem [("completeness", [(80:ℚ)])] (by decide)).2.2.2 (by decide)).2⟩

end DataHealth
